import Mathlib

/-!
# ExportSystem: the embedded standalone holographic renderer

A shallow embedding of `src/features/ExportSystem.js`: the fragment shader that
`generateSingleVariationHTML` embeds (GLSL: the lattice functions, `hsv2rgb`, `main`),
the `StandaloneHolographicRenderer` class, the layer set-up of the `load` handler, the
input handlers, the methods `getGeometryName` and `escapeHtml` with the lines of the
document into which the variation name is interpolated, and the methods
`getAllVariations`, `getVariationById`, `addToGallery` and `importJSON`.

Numbers are elements of an arbitrary linearly ordered field `α` with a floor
function (`ℚ` for evaluation, `ℝ` for the standard reading of the shader);
arithmetic is exact, rounding of machine floats is not modelled.  The
transcendental GLSL builtins (`sqrt`, `sin`, `cos`, `exp`) are carried in a
record `Builtins α`, so every theorem stated for an arbitrary `B : Builtins α`
holds for whatever those builtins return.
-/

namespace ExportSystem

/-! ## GLSL vectors and builtins -/

/-- GLSL `vec2`. -/
structure Vec2 (α : Type) where
  x : α
  y : α

/-- GLSL `vec3`. -/
structure Vec3 (α : Type) where
  x : α
  y : α
  z : α

/-- The transcendental builtins used by the shader. -/
structure Builtins (α : Type) where
  sqrt : α → α
  sin : α → α
  cos : α → α
  exp : α → α

/-- The standard interpretation of the builtins over the reals. -/
noncomputable def realBuiltins : Builtins ℝ where
  sqrt := Real.sqrt
  sin := Real.sin
  cos := Real.cos
  exp := Real.exp

section GLSL

variable {α : Type} [LinearOrderedField α] [FloorRing α]

/-- GLSL `floor`. -/
def glslFloor (x : α) : α := ((⌊x⌋ : ℤ) : α)

/-- GLSL `fract(x) = x - floor(x)`. -/
def fract (x : α) : α := x - glslFloor x

/-- GLSL `mod(x, y) = x - y * floor(x / y)`. -/
def glslMod (x y : α) : α := x - y * glslFloor (x / y)

/-- GLSL `int(x)`: conversion of a float to an integer drops the fractional part. -/
def glslInt (x : α) : ℤ := if 0 ≤ x then ⌊x⌋ else ⌈x⌉

/-- GLSL `clamp(x, minVal, maxVal) = min(max(x, minVal), maxVal)`. -/
def clamp (x minVal maxVal : α) : α := min (max x minVal) maxVal

/-- GLSL `mix(a, b, t) = a * (1 - t) + b * t`. -/
def mix (a b t : α) : α := a * (1 - t) + b * t

/-- GLSL `smoothstep(edge0, edge1, x)`. -/
def smoothstep (edge0 edge1 x : α) : α :=
  let t := clamp ((x - edge0) / (edge1 - edge0)) 0 1
  t * t * (3 - 2 * t)

/-- GLSL `length` of a `vec2`. -/
def length2 (B : Builtins α) (x y : α) : α := B.sqrt (x * x + y * y)

/-- GLSL `length` of a `vec3`. -/
def length3 (B : Builtins α) (v : Vec3 α) : α := B.sqrt (v.x * v.x + v.y * v.y + v.z * v.z)

/-- Component-wise `fract(p * gridSize)`. -/
def fractCell (p : Vec3 α) (gridSize : α) : Vec3 α :=
  ⟨fract (p.x * gridSize), fract (p.y * gridSize), fract (p.z * gridSize)⟩

/-- Component-wise `v - s` for a scalar `s`. -/
def Vec3.subScalar (v : Vec3 α) (s : α) : Vec3 α := ⟨v.x - s, v.y - s, v.z - s⟩

/-- Component-wise `v - w`. -/
def Vec3.sub (v w : Vec3 α) : Vec3 α := ⟨v.x - w.x, v.y - w.y, v.z - w.z⟩

/-! ## The eight lattice functions of the fragment shader -/

/-- Shader function `tetrahedronLattice`. -/
def tetrahedronLattice (B : Builtins α) (p : Vec3 α) (gridSize : α) : α :=
  let q := (fractCell p gridSize).subScalar 0.5
  let d1 := length3 B q
  let d2 := length3 B (q.sub ⟨0.4, 0.0, 0.0⟩)
  let d3 := length3 B (q.sub ⟨0.0, 0.4, 0.0⟩)
  let d4 := length3 B (q.sub ⟨0.0, 0.0, 0.4⟩)
  let vertices := 1.0 - smoothstep 0.0 0.04 (min (min d1 d2) (min d3 d4))
  let edges0 : α := 0.0
  let edges1 := max edges0 (1.0 - smoothstep 0.0 0.02 |length2 B q.x q.y - 0.2|)
  let edges2 := max edges1 (1.0 - smoothstep 0.0 0.02 |length2 B q.y q.z - 0.2|)
  let edges3 := max edges2 (1.0 - smoothstep 0.0 0.02 |length2 B q.x q.z - 0.2|)
  max vertices (edges3 * 0.5)

/-- Shader function `hypercubeLattice`. -/
def hypercubeLattice (p : Vec3 α) (gridSize : α) : α :=
  let grid := fractCell p gridSize
  let edgesX := 1.0 - smoothstep 0.0 0.03 |grid.x - 0.5|
  let edgesY := 1.0 - smoothstep 0.0 0.03 |grid.y - 0.5|
  let edgesZ := 1.0 - smoothstep 0.0 0.03 |grid.z - 0.5|
  max (max edgesX edgesY) edgesZ

/-- Shader function `sphereLattice`. -/
def sphereLattice (B : Builtins α) (p : Vec3 α) (gridSize : α) : α :=
  let q := (fractCell p gridSize).subScalar 0.5
  let r := length3 B q
  1.0 - smoothstep 0.2 0.5 r

/-- Shader function `torusLattice`. -/
def torusLattice (B : Builtins α) (p : Vec3 α) (gridSize : α) : α :=
  let q := (fractCell p gridSize).subScalar 0.5
  let r1 := B.sqrt (q.x * q.x + q.y * q.y)
  let r2 := B.sqrt ((r1 - 0.3) * (r1 - 0.3) + q.z * q.z)
  1.0 - smoothstep 0.0 0.1 r2

/-- Shader function `kleinLattice`. -/
def kleinLattice (B : Builtins α) (p : Vec3 α) (gridSize : α) : α :=
  let q := fractCell p gridSize
  let u := q.x * 6.28318
  let v := q.y * 6.28318
  let x := B.cos u * (3.0 + B.cos (u / 2.0) * B.sin v - B.sin (u / 2.0) * B.sin (2.0 * v))
  let klein := length2 B x q.z - 0.1
  1.0 - smoothstep 0.0 0.05 |klein|

/-- The loop state of `fractalLattice`: the folded point `q`, `scale` and the
accumulated `fractal` value. -/
structure FractalState (α : Type) where
  q : Vec3 α
  scale : α
  fractal : α

/-- One iteration of the `for` loop body of `fractalLattice`. -/
def fractalStep (B : Builtins α) (s : FractalState α) : FractalState α :=
  let q : Vec3 α := ⟨fract s.q.x - 0.5, fract s.q.y - 0.5, fract s.q.z - 0.5⟩
  { q := ⟨q.x * 2.0, q.y * 2.0, q.z * 2.0⟩
    scale := s.scale * 2.0
    fractal := s.fractal + |length3 B q| / s.scale }

/-- Shader function `fractalLattice`: four iterations of the loop body. -/
def fractalLattice (B : Builtins α) (p : Vec3 α) (gridSize : α) : α :=
  let init : FractalState α :=
    { q := ⟨p.x * gridSize, p.y * gridSize, p.z * gridSize⟩, scale := 1.0, fractal := 0.0 }
  let final := (fractalStep B)^[4] init
  1.0 - smoothstep 0.0 1.0 final.fractal

/-- Shader function `waveLattice`; it reads the uniform `u_time`. -/
def waveLattice (B : Builtins α) (u_time : α) (p : Vec3 α) (gridSize : α) : α :=
  let q : Vec3 α := ⟨p.x * gridSize, p.y * gridSize, p.z * gridSize⟩
  let wave := B.sin (q.x * 2.0) * B.sin (q.y * 2.0) * B.sin (q.z * 2.0 + u_time * 0.001)
  smoothstep (-0.5) 0.5 wave

/-- Shader function `crystalLattice`. -/
def crystalLattice (p : Vec3 α) (gridSize : α) : α :=
  let q := (fractCell p gridSize).subScalar 0.5
  let d := max (max |q.x| |q.y|) |q.z|
  1.0 - smoothstep 0.3 0.5 d

/-- The integer `geom = int(mod(geometryType, 8.0))` on which `getGeometry` dispatches. -/
def geomIndex (geometryType : α) : ℤ := glslInt (glslMod geometryType 8.0)

/-- Shader function `getGeometry`; `u_time` is the uniform read by `waveLattice`. -/
def getGeometry (B : Builtins α) (u_time : α) (p : Vec3 α) (gridSize geometryType : α) : α :=
  let geom := geomIndex geometryType
  if geom = 0 then tetrahedronLattice B p gridSize
  else if geom = 1 then hypercubeLattice p gridSize
  else if geom = 2 then sphereLattice B p gridSize
  else if geom = 3 then torusLattice B p gridSize
  else if geom = 4 then kleinLattice B p gridSize
  else if geom = 5 then fractalLattice B p gridSize
  else if geom = 6 then waveLattice B u_time p gridSize
  else crystalLattice p gridSize

/-- The eight lattice functions, as tags. -/
inductive Lattice where
  | tetrahedron
  | hypercube
  | sphere
  | torus
  | klein
  | fractal
  | wave
  | crystal
  deriving DecidableEq

/-- The lattice function a tag stands for. -/
def Lattice.eval (B : Builtins α) (u_time : α) (l : Lattice) (p : Vec3 α) (gridSize : α) : α :=
  match l with
  | .tetrahedron => tetrahedronLattice B p gridSize
  | .hypercube => hypercubeLattice p gridSize
  | .sphere => sphereLattice B p gridSize
  | .torus => torusLattice B p gridSize
  | .klein => kleinLattice B p gridSize
  | .fractal => fractalLattice B p gridSize
  | .wave => waveLattice B u_time p gridSize
  | .crystal => crystalLattice p gridSize

/-- The branch of the `if`/`else if` chain of `getGeometry` taken for `geometryType`. -/
def selectedLattice (geometryType : α) : Lattice :=
  let geom := geomIndex geometryType
  if geom = 0 then .tetrahedron
  else if geom = 1 then .hypercube
  else if geom = 2 then .sphere
  else if geom = 3 then .torus
  else if geom = 4 then .klein
  else if geom = 5 then .fractal
  else if geom = 6 then .wave
  else .crystal

/-- The lattice functions in the order of the geometry indices 0 to 7. -/
def latticeOrder : List Lattice :=
  [.tetrahedron, .hypercube, .sphere, .torus, .klein, .fractal, .wave, .crystal]

end GLSL

/-! ## Parameter sets and the layer set-up of the `load` handler -/

section Renderer

variable {α : Type} [LinearOrderedField α] [FloorRing α]

/-- The object `params` of the generated script, with numeric fields. -/
structure Params (α : Type) where
  geometry : α
  density : α
  speed : α
  chaos : α
  morph : α
  hue : α
  saturation : α
  intensity : α

/-- The parameter set of the example: geometry 2, density 2.0, speed 1.0, intensity
0.5, hue 90, the other fields at their defaults. -/
def exampleParams : Params α :=
  { geometry := 2, density := 2.0, speed := 1.0, chaos := 0, morph := 0, hue := 90,
    saturation := 0.8, intensity := 0.5 }

/-- Params of the background layer: `{...params, density: params.density * 0.4, ...}`. -/
def backgroundParams (params : Params α) : Params α :=
  { params with
    density := params.density * 0.4
    speed := params.speed * 0.2
    intensity := 0.2
    hue := params.hue }

/-- Params of the shadow layer. -/
def shadowParams (params : Params α) : Params α :=
  { params with
    density := params.density * 0.8
    speed := params.speed * 0.3
    intensity := 0.4
    hue := params.hue + 180 }

/-- Params of the content layer: `params` itself. -/
def contentParams (params : Params α) : Params α := params

/-- Params of the highlight layer. -/
def highlightParams (params : Params α) : Params α :=
  { params with
    density := params.density * 1.5
    speed := params.speed * 0.8
    intensity := 0.6
    hue := params.hue + 60 }

/-- Params of the accent layer. -/
def accentParams (params : Params α) : Params α :=
  { params with
    density := params.density * 2.0
    speed := params.speed * 0.4
    intensity := 0.3
    hue := params.hue + 300 }

/-- The `(role, params)` arguments of the five constructor calls of the `load`
handler, in the order in which the renderers are pushed. -/
def layerParams (params : Params α) : List (String × Params α) :=
  [("background", backgroundParams params),
   ("shadow", shadowParams params),
   ("content", contentParams params),
   ("highlight", highlightParams params),
   ("accent", accentParams params)]

/-! ## The class `StandaloneHolographicRenderer` -/

/-- The fields of a `StandaloneHolographicRenderer` whose WebGL context was
acquired.  `program` is `true` when `this.program` is a linked program and
`false` when `this.program` is `null`, the state that the guard of `render` tests
for. -/
structure StandaloneHolographicRenderer (α : Type) where
  role : String
  params : Params α
  program : Bool
  mouseX : α
  mouseY : α
  mouseIntensity : α
  clickIntensity : α
  clickDecay : α
  startTime : α

/-- The field values that the constructor assigns, for a canvas whose WebGL context
is available; `startTime` is the value of `Date.now()`.  The constructor of the source
runs to its end only when the program links (`program = true`): after a failed link
`initShaders` calls `gl.getUniformLocation` on `null`, which throws.  With
`program = false` this is the state of a renderer whose `program` field is `null`. -/
def StandaloneHolographicRenderer.construct (role : String) (params : Params α)
    (program : Bool) (startTime : α) : StandaloneHolographicRenderer α :=
  { role := role
    params := params
    program := program
    mouseX := 0.5
    mouseY := 0.5
    mouseIntensity := 0.0
    clickIntensity := 0.0
    clickDecay := 0.95
    startTime := startTime }

/-- The renderers created by the `load` handler. -/
def loadRenderers (params : Params α) (program : Bool) (startTime : α) :
    List (StandaloneHolographicRenderer α) :=
  (layerParams params).map fun rp =>
    StandaloneHolographicRenderer.construct rp.1 rp.2 program startTime

/-- The uniform values pushed by one call of `render`. -/
structure Uniforms (α : Type) where
  resolution : Vec2 α
  time : α
  mouse : Vec2 α
  geometryType : α
  density : α
  speed : α
  intensity : α
  hue : α
  chaos : α
  morph : α
  mouseIntensity : α

/-- What one call of `render` reads from its environment: `Date.now()` and the
client size of the canvas. -/
structure Frame (α : Type) where
  now : α
  clientWidth : α
  clientHeight : α

/-- JavaScript `x || d` for a number `x` (not NaN): `0` is falsy. -/
def orDefault (x d : α) : α := if x = 0 then d else x

/-- The method `render`: the updated renderer and, when a draw is issued, the
uniforms it was issued with. -/
def StandaloneHolographicRenderer.render (r : StandaloneHolographicRenderer α) (f : Frame α) :
    StandaloneHolographicRenderer α × Option (Uniforms α) :=
  if r.program = false then (r, none)
  else
    let clickIntensity := r.clickIntensity * r.clickDecay
    let time := f.now - r.startTime
    ({ r with clickIntensity := clickIntensity },
     some
      { resolution := ⟨f.clientWidth, f.clientHeight⟩
        time := time
        mouse := ⟨r.mouseX, r.mouseY⟩
        geometryType := orDefault r.params.geometry 0
        density := orDefault r.params.density 1.0
        speed := orDefault r.params.speed 0.5
        intensity := orDefault r.params.intensity 0.5
        hue := orDefault r.params.hue 0
        chaos := orDefault r.params.chaos 0
        morph := orDefault r.params.morph 0
        mouseIntensity := r.mouseIntensity + clickIntensity })

/-- The renderer after one call of `render` for each frame of `frames`, with no
input event in between. -/
def renderFrames (frames : List (Frame α)) (r : StandaloneHolographicRenderer α) :
    StandaloneHolographicRenderer α :=
  frames.foldl (fun s f => (s.render f).1) r

/-- A `mousemove` event. -/
structure MouseMove (α : Type) where
  clientX : α
  clientY : α
  movementX : α
  movementY : α
  innerWidth : α
  innerHeight : α

/-- The `mousemove` handler. -/
def mousemove (B : Builtins α) (e : MouseMove α)
    (renderers : List (StandaloneHolographicRenderer α)) :
    List (StandaloneHolographicRenderer α) :=
  let mouseX := e.clientX / e.innerWidth
  let mouseY := 1.0 - (e.clientY / e.innerHeight)
  let mouseIntensity :=
    min 1.0 (B.sqrt (e.movementX * e.movementX + e.movementY * e.movementY) / 40)
  renderers.map fun renderer =>
    { renderer with mouseX := mouseX, mouseY := mouseY, mouseIntensity := mouseIntensity }

/-- The `click` handler. -/
def click (renderers : List (StandaloneHolographicRenderer α)) :
    List (StandaloneHolographicRenderer α) :=
  renderers.map fun renderer =>
    { renderer with clickIntensity := min 1.0 (renderer.clickIntensity + 0.3) }

/-! ## Building `params` from a variation: JavaScript `||` defaults -/

/-- The JavaScript values a field of `variation.parameters` can hold. -/
inductive JSValue (α : Type) where
  | undefined
  | null
  | boolean (b : Bool)
  | number (x : α)
  | nan
  | string (s : String)
  | object

/-- JavaScript truthiness: `undefined`, `null`, `false`, `0`, `NaN` and the
empty string are falsy, every other value is truthy. -/
def JSValue.truthy : JSValue α → Bool
  | .undefined => false
  | .null => false
  | .boolean b => b
  | .number x => decide (x ≠ 0)
  | .nan => false
  | .string s => decide (s ≠ "")
  | .object => true

/-- JavaScript `a || d`. -/
def JSValue.or (a d : JSValue α) : JSValue α := if a.truthy then a else d

/-- The object `variation.parameters`; an absent field reads as `undefined`. -/
structure VariationParameters (α : Type) where
  geometryType : JSValue α
  density : JSValue α
  speed : JSValue α
  chaos : JSValue α
  morph : JSValue α
  hue : JSValue α
  saturation : JSValue α
  intensity : JSValue α

/-- The values interpolated into the `params` object literal of the generated script. -/
structure ExportParams (α : Type) where
  geometry : JSValue α
  density : JSValue α
  speed : JSValue α
  chaos : JSValue α
  morph : JSValue α
  hue : JSValue α
  saturation : JSValue α
  intensity : JSValue α

/-- The values of the eight substitutions `${variation.parameters.x || d}` of the
`params` object literal (lines 869-878 of `generateSingleVariationHTML`, and the same
literal `customParams` of `generateSingleCardDemo`).  The template evaluates them only
after its earlier substitutions, see `generateSingleVariationParams`. -/
def exportParams (parameters : VariationParameters α) : ExportParams α :=
  { geometry := parameters.geometryType.or (.number 0)
    density := parameters.density.or (.number 1.0)
    speed := parameters.speed.or (.number 0.5)
    chaos := parameters.chaos.or (.number 0.0)
    morph := parameters.morph.or (.number 0.0)
    hue := parameters.hue.or (.number 0)
    saturation := parameters.saturation.or (.number 0.8)
    intensity := parameters.intensity.or (.number 0.5) }

/-- The empty parameter set `{}`. -/
def emptyParameters : VariationParameters α :=
  { geometryType := .undefined
    density := .undefined
    speed := .undefined
    chaos := .undefined
    morph := .undefined
    hue := .undefined
    saturation := .undefined
    intensity := .undefined }

end Renderer

/-! ## A concrete session -/

/-- The parameter set of the end-to-end scenario: geometry 4, density 1.2, speed 0.5,
hue 200, saturation 0.8, intensity 0.5 (chaos and morph at their defaults). -/
def sessionParams : Params ℚ :=
  { geometry := 4, density := 1.2, speed := 0.5, chaos := 0, morph := 0, hue := 200,
    saturation := 0.8, intensity := 0.5 }

/-- The five renderers of that session, all with a valid program, created at time 0. -/
def sessionRenderers : List (StandaloneHolographicRenderer ℚ) :=
  loadRenderers sessionParams true 0

/-- A frame of an 800 x 600 canvas. -/
def sampleFrame : Frame ℚ := { now := 16, clientWidth := 800, clientHeight := 600 }

/-- The content renderer of the session with its click intensity at 1.0. -/
def saturatedRenderer : StandaloneHolographicRenderer ℚ :=
  { StandaloneHolographicRenderer.construct "content" sessionParams true 0 with
    clickIntensity := 1.0 }

/-! ## The fragment shader: `hsv2rgb` and `main` -/

section Shader

variable {α : Type} [LinearOrderedField α] [FloorRing α]

/-- GLSL `vec4`. -/
structure Vec4 (α : Type) where
  x : α
  y : α
  z : α
  w : α

/-- Shader function `hsv2rgb`. -/
def hsv2rgb (c : Vec3 α) : Vec3 α :=
  let K : Vec4 α := ⟨1.0, 2.0 / 3.0, 1.0 / 3.0, 3.0⟩
  let p : Vec3 α :=
    ⟨|fract (c.x + K.x) * 6.0 - K.w|, |fract (c.x + K.y) * 6.0 - K.w|,
     |fract (c.x + K.z) * 6.0 - K.w|⟩
  ⟨c.z * mix K.x (clamp (p.x - K.x) 0.0 1.0) c.y,
   c.z * mix K.x (clamp (p.y - K.x) 0.0 1.0) c.y,
   c.z * mix K.x (clamp (p.z - K.x) 0.0 1.0) c.y⟩

/-- The local `aspectRatio` of `main`. -/
def aspectRatio (u : Uniforms α) : α := u.resolution.x / u.resolution.y

/-- The local `uv` of `main`, after `uv.x *= aspectRatio` and `uv -= 0.5`. -/
def fragmentUV (u : Uniforms α) (fragCoord : Vec2 α) : Vec2 α :=
  ⟨fragCoord.x / u.resolution.x * aspectRatio u - 0.5, fragCoord.y / u.resolution.y - 0.5⟩

/-- The local `time` of `main`. -/
def shaderTime (u : Uniforms α) : α := u.time * 0.0004 * u.speed

/-- The sample point `p` of `main`. -/
def fragmentPoint (B : Builtins α) (u : Uniforms α) (fragCoord : Vec2 α) : Vec3 α :=
  let uv := fragmentUV u fragCoord
  let time := shaderTime u
  let mouseOffset : Vec2 α :=
    ⟨(u.mouse.x - 0.5) * u.mouseIntensity * 0.5, (u.mouse.y - 0.5) * u.mouseIntensity * 0.5⟩
  ⟨uv.x + mouseOffset.x * 0.1, uv.y + mouseOffset.y * 0.1, B.sin (time * 0.1) * 0.15⟩

/-- The local `lattice` of `main`. -/
def fragmentLattice (B : Builtins α) (u : Uniforms α) (fragCoord : Vec2 α) : α :=
  getGeometry B u.time (fragmentPoint B u fragCoord) u.density u.geometryType

/-- The local `color` of `main` right after `hsv2rgb`. -/
def baseColor (B : Builtins α) (u : Uniforms α) (fragCoord : Vec2 α) : Vec3 α :=
  let time := shaderTime u
  let lattice := fragmentLattice B u fragCoord
  let hue := u.hue / 360.0 + time * 0.1 + u.mouseIntensity * 0.2
  let saturation := 0.8 + lattice * 0.2
  let brightness := 0.2 + lattice * 0.8 * u.intensity + u.mouseIntensity * 0.15
  hsv2rgb ⟨hue, saturation, brightness⟩

/-- The local `mouseDist` of `main`. -/
def mouseDist (B : Builtins α) (u : Uniforms α) (fragCoord : Vec2 α) : α :=
  let uv := fragmentUV u fragCoord
  length2 B (uv.x - (u.mouse.x - 0.5) * aspectRatio u) (uv.y - (u.mouse.y - 0.5) * 1.0)

/-- The local `mouseGlow` of `main`. -/
def mouseGlow (B : Builtins α) (u : Uniforms α) (fragCoord : Vec2 α) : α :=
  B.exp (-(mouseDist B u fragCoord) * 1.5) * u.mouseIntensity * 0.2

/-- Shader function `main`: the value written to `gl_FragColor` for the fragment at
`gl_FragCoord.xy = fragCoord`. -/
def main (B : Builtins α) (u : Uniforms α) (fragCoord : Vec2 α) : Vec4 α :=
  let lattice := fragmentLattice B u fragCoord
  let color0 := baseColor B u fragCoord
  let glow := mouseGlow B u fragCoord
  let color1 : Vec3 α :=
    ⟨color0.x + glow * 0.0 * 0.6, color0.y + glow * 1.0 * 0.6, color0.z + glow * 1.0 * 0.6⟩
  let color2 : Vec3 α :=
    if lattice < 0.01 then
      ⟨mix color1.x 0.1 0.9, mix color1.y 0.1 0.9, mix color1.z 0.1 0.9⟩
    else color1
  ⟨color2.x, color2.y, color2.z, 0.95⟩

/-- The colour `hsv2rgb(h, 0.8, 0.2)` of a fragment with presence 0 and interaction
intensity 0, where `h = u_hue / 360 + time * 0.1`. -/
def restColor (u : Uniforms α) : Vec3 α :=
  hsv2rgb ⟨u.hue / 360.0 + shaderTime u * 0.1, 0.8, 0.2⟩

/-- Uniforms of a crystal-lattice frame at elapsed time 0 with no interaction, on an
800 x 600 canvas. -/
noncomputable def restUniforms : Uniforms ℝ :=
  { resolution := ⟨800, 600⟩, time := 0, mouse := ⟨0.5, 0.5⟩, geometryType := 7,
    density := 1.0, speed := 0.5, intensity := 0.5, hue := 200, chaos := 0, morph := 0,
    mouseIntensity := 0 }

/-- The same uniforms with interaction intensity 0.3. -/
noncomputable def glowUniforms : Uniforms ℝ :=
  { restUniforms with mouseIntensity := 0.3 }

/-- The centre of the pixel `(400, 300)`. -/
noncomputable def sampleFragment : Vec2 ℝ := ⟨400.5, 300.5⟩

end Shader

/-! ## Sequences of input events and frames -/

section Events

variable {α : Type} [LinearOrderedField α]

/-- What can happen to the list `renderers`: a `click` event, a `mousemove` event, or
the frame callback of the renderer at position `i`. -/
inductive Event (α : Type) where
  | click
  | mousemove (e : MouseMove α)
  | frame (i : Nat) (f : Frame α)

/-- The renderer at position `i` runs `render`; the others are untouched. -/
def renderAt (f : Frame α) : Nat → List (StandaloneHolographicRenderer α) →
    List (StandaloneHolographicRenderer α)
  | _, [] => []
  | 0, r :: rs => (r.render f).1 :: rs
  | i + 1, r :: rs => r :: renderAt f i rs

/-- The effect of one event on the list `renderers`. -/
def handleEvent (B : Builtins α) (renderers : List (StandaloneHolographicRenderer α)) :
    Event α → List (StandaloneHolographicRenderer α)
  | .click => click renderers
  | .mousemove e => mousemove B e renderers
  | .frame i f => renderAt f i renderers

/-- The effect of a finite sequence of events. -/
def runEvents (B : Builtins α) (events : List (Event α))
    (renderers : List (StandaloneHolographicRenderer α)) :
    List (StandaloneHolographicRenderer α) :=
  events.foldl (handleEvent B) renderers

/-- The invariant of a renderer: decay factor 0.95 and click intensity in `[0,1]`. -/
def ClickBounded (r : StandaloneHolographicRenderer α) : Prop :=
  r.clickDecay = 0.95 ∧ 0 ≤ r.clickIntensity ∧ r.clickIntensity ≤ 1

/-- The movement magnitude `Math.sqrt(movementX^2 + movementY^2)` of a `mousemove`
event. -/
def movementMagnitude (B : Builtins α) (e : MouseMove α) : α :=
  B.sqrt (e.movementX * e.movementX + e.movementY * e.movementY)

/-- The five renderers of the example parameter set over the reals, with a valid
program, created at time 0. -/
noncomputable def realRenderers : List (StandaloneHolographicRenderer ℝ) :=
  loadRenderers exampleParams true 0

/-- A pointer move by `(30, 40)` pixels to the point `(200, 150)` of an 800 x 600 window. -/
noncomputable def sampleMove : MouseMove ℝ :=
  { clientX := 200, clientY := 150, movementX := 30, movementY := 40,
    innerWidth := 800, innerHeight := 600 }

/-- A sample event sequence: clicks, a frame of the content renderer and a pointer move. -/
noncomputable def sampleEvents : List (Event ℝ) :=
  [.click, .frame 2 { now := 16, clientWidth := 800, clientHeight := 600 }, .click,
   .click, .mousemove sampleMove, .click, .click]

end Events

/-! ## `getGeometryName` -/

section GeometryName

variable {α : Type} [LinearOrderedField α] [FloorRing α]

/-- A `geometryId` that is a number, `NaN` or `undefined`. -/
inductive GeometryId (α : Type) where
  | undefined
  | nan
  | number (x : α)

/-- The array `geometryNames`. -/
def geometryNames : List String :=
  ["TETRAHEDRON", "HYPERCUBE", "SPHERE", "TORUS", "KLEIN BOTTLE", "FRACTAL", "WAVE", "CRYSTAL"]

/-- The property read `geometryNames[geometryId]`; `none` stands for `undefined`.  A
number is an array index when it is a non-negative integer. -/
def geometryNamesAt : GeometryId α → Option String
  | .undefined => none
  | .nan => none
  | .number x =>
    if 0 ≤ x ∧ x = ((⌊x⌋ : ℤ) : α) then geometryNames.get? (⌊x⌋).toNat else none

/-- The method `getGeometryName`: `geometryNames[geometryId] || "UNKNOWN"`. -/
def getGeometryName (geometryId : GeometryId α) : String :=
  match geometryNamesAt geometryId with
  | some name => if name ≠ "" then name else "UNKNOWN"
  | none => "UNKNOWN"

end GeometryName

/-! ## `escapeHtml` and the interpolations of the variation name -/

/-- The character `"`. -/
def doubleQuote : Char := Char.ofNat 34

/-- The apostrophe. -/
def singleQuote : Char := Char.ofNat 39

/-- The object `map` of `escapeHtml`. -/
def escapeMap : List (Char × String) :=
  [('&', "&amp;"), ('<', "&lt;"), ('>', "&gt;"), (doubleQuote, "&quot;"),
   (singleQuote, "&#039;")]

/-- Whether a character matches the class of the regular expression of `escapeHtml`. -/
def matchesClass (c : Char) : Bool :=
  c = '&' || c = '<' || c = '>' || c = doubleQuote || c = singleQuote

/-- The replacement callback `m => map[m]`; a missing key would give `undefined`,
which `replace` inserts as the text "undefined". -/
def mapLookup (m : Char) : String := (escapeMap.lookup m).getD "undefined"

/-- Global replacement of every match by the value of the callback. -/
def replaceMatches : List Char → List Char
  | [] => []
  | c :: cs => (if matchesClass c then (mapLookup c).data else [c]) ++ replaceMatches cs

/-- The method `escapeHtml`. -/
def escapeHtml (text : String) : String := ⟨replaceMatches text.data⟩

/-- The five entities that `escapeHtml` writes. -/
def entities : List String := ["&amp;", "&lt;", "&gt;", "&quot;", "&#039;"]

/-- The `title` line of the document of `generateSingleVariationHTML`. -/
def titleLine (name : String) : String :=
  "    <title>" ++ escapeHtml name ++ " - Holographic Visualization</title>"

/-- The `h1` line of the document of `generateSingleVariationHTML`. -/
def headingLine (name : String) : String :=
  "            <h1>" ++ escapeHtml name ++ "</h1>"

/-- The `name:` line of the script embedded by `generateSingleVariationHTML`. -/
def scriptNameLine (name : String) : String :=
  "            name: " ++ singleQuote.toString ++ name ++ singleQuote.toString ++ ","

/-- The lines of the document of `generateSingleVariationHTML` into which
`variation.name` is interpolated, in document order. -/
def nameLines (name : String) : List String :=
  [titleLine name, headingLine name, scriptNameLine name]

/-- A character that is none of `<`, `>`, the double quote and the apostrophe. -/
def NotMarkup (c : Char) : Prop :=
  c ≠ '<' ∧ c ≠ '>' ∧ c ≠ doubleQuote ∧ c ≠ singleQuote

/-- Every `&` of the text is the first character of one of the five entities. -/
def AmpersandsStartEntities (out : List Char) : Prop :=
  ∀ pre post : List Char, out = pre ++ '&' :: post →
    ∃ e ∈ entities, ∃ rest : List Char, '&' :: post = e.data ++ rest

/-- The content renderer of the session as the constructor leaves it. -/
def contentRenderer : StandaloneHolographicRenderer ℚ :=
  StandaloneHolographicRenderer.construct "content" sessionParams true 0

/-- A renderer with the fields of the content renderer whose `program` is `null`. -/
def brokenRenderer : StandaloneHolographicRenderer ℚ :=
  StandaloneHolographicRenderer.construct "content" sessionParams false 0

/-! ## The radial distance of `sphereLattice` -/

section CellRadius

variable {α : Type} [LinearOrderedField α] [FloorRing α]

/-- The radial distance `r` of `sphereLattice`: the length of `fract(p * gridSize) - 0.5`. -/
def cellRadius (B : Builtins α) (p : Vec3 α) (gridSize : α) : α :=
  length3 B ((fractCell p gridSize).subScalar 0.5)

/-- The point `p + k / gridSize` for an integer vector `k`. -/
def shiftCells (p : Vec3 α) (gridSize : α) (kx ky kz : ℤ) : Vec3 α :=
  ⟨p.x + (kx : α) / gridSize, p.y + (ky : α) / gridSize, p.z + (kz : α) / gridSize⟩

end CellRadius

/-! ## Variations, the gallery and the JSON import -/

section Variations

variable {α : Type} [LinearOrderedField α]

/-- The object returned by `visualizer.generateVariantParams(i)`: its `name` and its
eight parameter fields. -/
structure GeneratedParams (α : Type) where
  name : JSValue α
  parameters : VariationParameters α

/-- An entry of `system.customVariants`: `cv.name` and the object `cv.params`, which
has the keys `geometry`, `density`, ..., `intensity`. -/
structure CustomVariant (α : Type) where
  name : JSValue α
  params : ExportParams α

/-- The fields of `this.system` that the methods read and write.  The method
`generateVariantParams` of the content visualizer is not part of the file; it is a
field of this record. -/
structure HolographicSystem (α : Type) where
  baseVariants : ℕ
  variantNames : ℕ → JSValue α
  generateVariantParams : ℕ → GeneratedParams α
  customVariants : List (CustomVariant α)
  totalVariants : ℕ
  currentVariant : JSValue α

/-- An entry of the list built by `getAllVariations`. -/
structure Variation (α : Type) where
  id : ℕ
  name : JSValue α
  isCustom : Bool
  parameters : VariationParameters α

/-- The entry pushed for the base variation `i`. -/
def baseEntry (system : HolographicSystem α) (i : ℕ) : Variation α :=
  let params := system.generateVariantParams i
  { id := i
    name := (system.variantNames i).or params.name
    isCustom := false
    parameters := params.parameters }

/-- The entry pushed for the custom variation `cv` at position `index`. -/
def customEntry (system : HolographicSystem α) (index : ℕ) (cv : CustomVariant α) :
    Variation α :=
  { id := system.baseVariants + index
    name := cv.name
    isCustom := true
    parameters :=
      { geometryType := cv.params.geometry
        density := cv.params.density
        speed := cv.params.speed
        chaos := cv.params.chaos
        morph := cv.params.morph
        hue := cv.params.hue
        saturation := cv.params.saturation
        intensity := cv.params.intensity } }

/-- The loop `customVariants.forEach((cv, index) => ...)`, from position `index` on. -/
def pushCustom (system : HolographicSystem α) : ℕ → List (CustomVariant α) →
    List (Variation α)
  | _, [] => []
  | index, cv :: rest => customEntry system index cv :: pushCustom system (index + 1) rest

/-- The method `getAllVariations`. -/
def getAllVariations (system : HolographicSystem α) : List (Variation α) :=
  (List.range system.baseVariants).map (baseEntry system)
    ++ pushCustom system 0 system.customVariants

/-- The test `v.id === id` for the number `v.id`. -/
def idStrictEq (vid : ℕ) (id : JSValue α) : Bool :=
  match id with
  | .number x => decide ((vid : α) = x)
  | _ => false

/-- The method `getVariationById`; `none` stands for `undefined`. -/
def getVariationById (system : HolographicSystem α) (id : JSValue α) :
    Option (Variation α) :=
  (getAllVariations system).find? fun v => idStrictEq v.id id

/-- An item of the stored gallery: `{...currentVariation, addedDate, fromSystem}`. -/
structure GalleryItem (α : Type) where
  variation : Variation α
  addedDate : String
  fromSystem : String

/-- JavaScript `ToNumber`; `none` stands for `NaN`.  The conversion of a string is the
runtime's, passed as `stringToNumber`; `.object` stands for a plain object. -/
def JSValue.toNumber (stringToNumber : String → Option α) : JSValue α → Option α
  | .undefined => none
  | .null => some 0
  | .boolean b => some (if b then 1 else 0)
  | .number x => some x
  | .nan => none
  | .string s => stringToNumber s
  | .object => none

/-- JavaScript `a === b` between a value read from a parsed gallery item and a value of
the current variation (two objects are never the same object). -/
def JSValue.strictEq : JSValue α → JSValue α → Bool
  | .undefined, .undefined => true
  | .null, .null => true
  | .boolean a, .boolean b => decide (a = b)
  | .number x, .number y => decide (x = y)
  | .string s, .string t => decide (s = t)
  | _, _ => false

/-- The test `Math.abs(a - b) < 0.01`. -/
def withinTolerance (stringToNumber : String → Option α) (a b : JSValue α) : Bool :=
  match a.toNumber stringToNumber, b.toNumber stringToNumber with
  | some x, some y => decide (|x - y| < 0.01)
  | _, _ => false

/-- The predicate of `findIndex` in `addToGallery`. -/
def alreadyInGallery (stringToNumber : String → Option α) (currentVariation : Variation α)
    (item : GalleryItem α) : Bool :=
  decide (item.variation.id = currentVariation.id) ||
    (item.variation.parameters.geometryType.strictEq currentVariation.parameters.geometryType
      && withinTolerance stringToNumber item.variation.parameters.density
          currentVariation.parameters.density
      && withinTolerance stringToNumber item.variation.parameters.speed
          currentVariation.parameters.speed)

/-- What `JSON.parse(JSON.stringify(v))` gives for a value: `NaN` becomes `null`. -/
def jsonValue : JSValue α → JSValue α
  | .nan => .null
  | v => v

/-- The JSON round trip of a gallery item. -/
def jsonItem (item : GalleryItem α) : GalleryItem α :=
  { item with
    variation :=
      { item.variation with
        name := jsonValue item.variation.name
        parameters :=
          { geometryType := jsonValue item.variation.parameters.geometryType
            density := jsonValue item.variation.parameters.density
            speed := jsonValue item.variation.parameters.speed
            chaos := jsonValue item.variation.parameters.chaos
            morph := jsonValue item.variation.parameters.morph
            hue := jsonValue item.variation.parameters.hue
            saturation := jsonValue item.variation.parameters.saturation
            intensity := jsonValue item.variation.parameters.intensity } } }

/-- The item that `addToGallery` pushes at time stamp `now`. -/
def newGalleryItem (now : String) (currentVariation : Variation α) : GalleryItem α :=
  { variation := currentVariation
    addedDate := now
    fromSystem := "Active Holographic Systems" }

/-- The method `addToGallery`, as a function from the gallery stored under
`holographicGallery` (as `JSON.parse` reads it; the empty list when nothing is stored)
to the gallery stored afterwards.  `now` is `new Date().toISOString()`; reads and
writes of `localStorage` succeed. -/
def addToGallery (stringToNumber : String → Option α) (now : String)
    (system : HolographicSystem α) (stored : List (GalleryItem α)) : List (GalleryItem α) :=
  match getVariationById system system.currentVariant with
  | none => stored
  | some currentVariation =>
    let galleryItems := stored
    let existingIndex := galleryItems.findIdx? (alreadyInGallery stringToNumber currentVariation)
    if existingIndex.isSome then stored
    else galleryItems ++ [jsonItem (newGalleryItem now currentVariation)]

/-- The value of `JSON.parse(e.target.result)` as far as `importJSON` reads it: the
field `type` and the field `customVariations` (`none` when absent, else an array). -/
structure ImportedDocument (α : Type) where
  type : JSValue α
  customVariations : Option (List (CustomVariant α))

/-- What `importJSON` is given: no file, a text that `JSON.parse` rejects, or a parsed
document. -/
inductive ImportInput (α : Type) where
  | noFile
  | invalidJSON
  | document (data : ImportedDocument α)

/-- The method `importJSON` with its `onload` callback, as a function on the system. -/
def importJSON (system : HolographicSystem α) : ImportInput α → HolographicSystem α
  | .noFile => system
  | .invalidJSON => system
  | .document data =>
    if data.type.strictEq (.string "holographic-collection") then
      let customVariants := data.customVariations.getD []
      { system with
        customVariants := customVariants
        totalVariants := system.baseVariants + customVariants.length }
    else system

/-- A thrown `TypeError`. -/
inductive JSError where
  | typeError
  deriving DecidableEq

/-- Whether `text.replace(...)` can be called in `escapeHtml(text)`: `text` is a string.
On any other value of the model the call throws a `TypeError`. -/
def JSValue.isString : JSValue α → Bool
  | .string _ => true
  | _ => false

/-- Whether `x.toFixed(2)` can be called: `x` is a number (`NaN` included).  On
`undefined` and `null` the property read throws, on the other values `toFixed` is not a
function; both are a `TypeError`. -/
def JSValue.isNumber : JSValue α → Bool
  | .number _ => true
  | .nan => true
  | _ => false

/-- The params that `generateSingleVariationHTML` writes, or the error it throws
before writing them.  The substitutions of the template are evaluated in order:
`escapeHtml(variation.name)` (lines 546 and 552), `getGeometryName` (line 556, never
throws), `density.toFixed(2)`, `speed.toFixed(2)`, `chaos.toFixed(2)` (lines 560, 564,
568) and then the `params` literal (lines 869-878). -/
def generateSingleVariationParams (variation : Variation α) :
    Except JSError (ExportParams α) :=
  if variation.name.isString = false then .error .typeError
  else if variation.parameters.density.isNumber = false then .error .typeError
  else if variation.parameters.speed.isNumber = false then .error .typeError
  else if variation.parameters.chaos.isNumber = false then .error .typeError
  else .ok (exportParams variation.parameters)

/-- The params `customParams` that `generateSingleCardDemo` writes, or the error it
throws before writing them: its template evaluates `escapeHtml(variation.name)` (lines
308 and 460) and then the literal (lines 485-492); it has no `toFixed` call. -/
def generateSingleCardDemoParams (variation : Variation α) :
    Except JSError (ExportParams α) :=
  if variation.name.isString = false then .error .typeError
  else .ok (exportParams variation.parameters)

/-- The text that a template substitution `${v}` writes for a value: the decimal
numeral of a number, or the given characters, without quotes. -/
inductive Written (α : Type) where
  | numeral (x : α)
  | chars (s : String)

/-- The text written for a value by a template substitution. -/
def JSValue.written : JSValue α → Written α
  | .undefined => .chars "undefined"
  | .null => .chars "null"
  | .boolean b => .chars (if b then "true" else "false")
  | .number x => .numeral x
  | .nan => .chars "NaN"
  | .string s => .chars s
  | .object => .chars "[object Object]"

/-- A variation named "Empty" whose parameter set is empty. -/
def emptyVariation : Variation ℚ :=
  { id := 0, name := .string "Empty", isCustom := true, parameters := emptyParameters }

/-- A variation with numeric density, speed and chaos whose hue is the string "red". -/
def redVariation : Variation ℚ :=
  { id := 0, name := .string "Red", isCustom := true,
    parameters :=
      { emptyParameters with
        density := .number 1.2, speed := .number 0.5, chaos := .number 0,
        hue := .string "red" } }

/-- A variation with density 1.2, chaos 0, hue 200 and speed 0. -/
def zeroSpeedVariation : Variation ℚ :=
  { id := 0, name := .string "Still", isCustom := true,
    parameters :=
      { emptyParameters with
        density := .number 1.2, speed := .number 0, chaos := .number 0,
        hue := .number 200 } }

/-- The same variation with the field speed omitted. -/
def noSpeedVariation : Variation ℚ :=
  { id := 0, name := .string "Still", isCustom := true,
    parameters :=
      { emptyParameters with
        density := .number 1.2, chaos := .number 0, hue := .number 200 } }

/-- A custom variation: Klein bottle, density 1.2, speed 0.5. -/
def sampleCustom : CustomVariant ℚ :=
  { name := .string "Neon Klein"
    params :=
      { geometry := .number 4, density := .number 1.2, speed := .number 0.5,
        chaos := .number 0, morph := .number 0, hue := .number 200,
        saturation := .number 0.8, intensity := .number 0.5 } }

/-- A system with two base variations and one custom variation, the custom one
current. -/
def sampleSystem : HolographicSystem ℚ :=
  { baseVariants := 2
    variantNames := fun _ => .undefined
    generateVariantParams := fun i =>
      { name := .string "BASE"
        parameters :=
          { geometryType := .number i, density := .number 1.0, speed := .number 0.5,
            chaos := .number 0, morph := .number 0, hue := .number 0,
            saturation := .number 0.8, intensity := .number 0.5 } }
    customVariants := [sampleCustom]
    totalVariants := 3
    currentVariant := .number 2 }

/-- The current variation of `sampleSystem`. -/
def sampleCurrent : Variation ℚ := customEntry sampleSystem 0 sampleCustom

/-- An exported collection with one custom variation. -/
def sampleDocument : ImportedDocument ℚ :=
  { type := .string "holographic-collection", customVariations := some [sampleCustom] }

/-- A document of another type. -/
def otherDocument : ImportedDocument ℚ :=
  { type := .string "holographic-gallery-backup", customVariations := some [sampleCustom] }

/-- The content renderer of the example parameter set over the reals. -/
noncomputable def realContentRenderer : StandaloneHolographicRenderer ℝ :=
  StandaloneHolographicRenderer.construct "content" exampleParams true 0

/-- The example parameter set with other chaos, morph and saturation. -/
noncomputable def variedParams : Params ℝ :=
  { (exampleParams : Params ℝ) with chaos := 1, morph := 1, saturation := 0 }

/-- A frame of an 800 x 600 canvas, over the reals. -/
noncomputable def realFrame : Frame ℝ := { now := 16, clientWidth := 800, clientHeight := 600 }

/-- The uniforms pushed by `render`, or `restUniforms` when no draw is issued. -/
noncomputable def pushedUniforms (r : StandaloneHolographicRenderer ℝ) (f : Frame ℝ) :
    Uniforms ℝ :=
  (r.render f).2.getD restUniforms

end Variations

/-! ## Range of the lattice functions -/

section Smoothstep

variable {α : Type} [LinearOrderedField α]

theorem clamp_zero_one_nonneg (x : α) : 0 ≤ clamp x 0 1 := by
  unfold clamp
  exact le_min (le_max_right _ _) zero_le_one

theorem clamp_zero_one_le_one (x : α) : clamp x 0 1 ≤ 1 := by
  unfold clamp
  exact min_le_right _ _

theorem smoothstep_nonneg (edge0 edge1 x : α) : 0 ≤ smoothstep edge0 edge1 x := by
  unfold smoothstep
  have h0 := clamp_zero_one_nonneg ((x - edge0) / (edge1 - edge0))
  have h1 := clamp_zero_one_le_one ((x - edge0) / (edge1 - edge0))
  have h2 : 0 ≤ 3 - 2 * clamp ((x - edge0) / (edge1 - edge0)) 0 1 := by linarith
  exact mul_nonneg (mul_nonneg h0 h0) h2

theorem smoothstep_le_one (edge0 edge1 x : α) : smoothstep edge0 edge1 x ≤ 1 := by
  unfold smoothstep
  have h0 := clamp_zero_one_nonneg ((x - edge0) / (edge1 - edge0))
  have h1 := clamp_zero_one_le_one ((x - edge0) / (edge1 - edge0))
  nlinarith [mul_nonneg (mul_nonneg (sub_nonneg.2 h1) (sub_nonneg.2 h1)) h0,
    mul_nonneg (sub_nonneg.2 h1) (sub_nonneg.2 h1)]

theorem inv_smoothstep_nonneg (edge0 edge1 x : α) : 0 ≤ 1.0 - smoothstep edge0 edge1 x := by
  have h := smoothstep_le_one edge0 edge1 x
  norm_num
  exact h

theorem inv_smoothstep_le_one (edge0 edge1 x : α) : 1.0 - smoothstep edge0 edge1 x ≤ 1 := by
  have h := smoothstep_nonneg edge0 edge1 x
  norm_num
  exact h

theorem waveLattice_range (B : Builtins α) (u_time : α) (p : Vec3 α) (gridSize : α) :
    0 ≤ waveLattice B u_time p gridSize ∧ waveLattice B u_time p gridSize ≤ 1 :=
  ⟨smoothstep_nonneg _ _ _, smoothstep_le_one _ _ _⟩

end Smoothstep

section Range

variable {α : Type} [LinearOrderedField α] [FloorRing α]

theorem tetrahedronLattice_range (B : Builtins α) (p : Vec3 α) (gridSize : α) :
    0 ≤ tetrahedronLattice B p gridSize ∧ tetrahedronLattice B p gridSize ≤ 1 := by
  unfold tetrahedronLattice
  constructor
  · exact le_max_of_le_left (inv_smoothstep_nonneg _ _ _)
  · refine max_le (inv_smoothstep_le_one _ _ _) ?_
    have h : ∀ a b c : α, a ≤ 1 → b ≤ 1 → c ≤ 1 →
        max (max (max (0.0 : α) a) b) c * 0.5 ≤ 1 := by
      intro a b c ha hb hc
      have hm : max (max (max (0.0 : α) a) b) c ≤ 1 :=
        max_le (max_le (max_le (by norm_num) ha) hb) hc
      norm_num
      linarith
    exact h _ _ _ (inv_smoothstep_le_one _ _ _) (inv_smoothstep_le_one _ _ _)
      (inv_smoothstep_le_one _ _ _)

theorem hypercubeLattice_range (p : Vec3 α) (gridSize : α) :
    0 ≤ hypercubeLattice p gridSize ∧ hypercubeLattice p gridSize ≤ 1 := by
  unfold hypercubeLattice
  constructor
  · exact le_max_of_le_right (inv_smoothstep_nonneg _ _ _)
  · exact max_le (max_le (inv_smoothstep_le_one _ _ _) (inv_smoothstep_le_one _ _ _))
      (inv_smoothstep_le_one _ _ _)

theorem sphereLattice_range (B : Builtins α) (p : Vec3 α) (gridSize : α) :
    0 ≤ sphereLattice B p gridSize ∧ sphereLattice B p gridSize ≤ 1 :=
  ⟨inv_smoothstep_nonneg _ _ _, inv_smoothstep_le_one _ _ _⟩

theorem torusLattice_range (B : Builtins α) (p : Vec3 α) (gridSize : α) :
    0 ≤ torusLattice B p gridSize ∧ torusLattice B p gridSize ≤ 1 :=
  ⟨inv_smoothstep_nonneg _ _ _, inv_smoothstep_le_one _ _ _⟩

theorem kleinLattice_range (B : Builtins α) (p : Vec3 α) (gridSize : α) :
    0 ≤ kleinLattice B p gridSize ∧ kleinLattice B p gridSize ≤ 1 :=
  ⟨inv_smoothstep_nonneg _ _ _, inv_smoothstep_le_one _ _ _⟩

theorem fractalLattice_range (B : Builtins α) (p : Vec3 α) (gridSize : α) :
    0 ≤ fractalLattice B p gridSize ∧ fractalLattice B p gridSize ≤ 1 :=
  ⟨inv_smoothstep_nonneg _ _ _, inv_smoothstep_le_one _ _ _⟩

theorem crystalLattice_range (p : Vec3 α) (gridSize : α) :
    0 ≤ crystalLattice p gridSize ∧ crystalLattice p gridSize ≤ 1 :=
  ⟨inv_smoothstep_nonneg _ _ _, inv_smoothstep_le_one _ _ _⟩

theorem Lattice.eval_range (B : Builtins α) (u_time : α) (l : Lattice) (p : Vec3 α)
    (gridSize : α) : 0 ≤ l.eval B u_time p gridSize ∧ l.eval B u_time p gridSize ≤ 1 := by
  cases l
  · exact tetrahedronLattice_range B p gridSize
  · exact hypercubeLattice_range p gridSize
  · exact sphereLattice_range B p gridSize
  · exact torusLattice_range B p gridSize
  · exact kleinLattice_range B p gridSize
  · exact fractalLattice_range B p gridSize
  · exact waveLattice_range B u_time p gridSize
  · exact crystalLattice_range p gridSize

/-- The value of `getGeometry` is the value of the lattice function of the branch taken. -/
theorem getGeometry_eq_eval (B : Builtins α) (u_time : α) (p : Vec3 α)
    (gridSize geometryType : α) :
    getGeometry B u_time p gridSize geometryType
      = (selectedLattice geometryType).eval B u_time p gridSize := by
  unfold getGeometry selectedLattice
  simp only []
  split_ifs <;> rfl

/-- Claim C1. Each of the eight lattice functions, and hence `getGeometry` for every
`geometryType`, returns a presence value in the closed interval `[0,1]`, for every
sample point, every `gridSize` (in particular every `gridSize > 0`) and every
elapsed time `u_time`. -/
theorem getGeometry_range (B : Builtins α) (u_time : α) (p : Vec3 α) (gridSize : α) :
    (∀ l : Lattice, 0 ≤ l.eval B u_time p gridSize ∧ l.eval B u_time p gridSize ≤ 1) ∧
    (∀ geometryType : α, 0 ≤ getGeometry B u_time p gridSize geometryType ∧
      getGeometry B u_time p gridSize geometryType ≤ 1) := by
  refine ⟨fun l => Lattice.eval_range B u_time l p gridSize, fun geometryType => ?_⟩
  rw [getGeometry_eq_eval]
  exact Lattice.eval_range B u_time _ p gridSize

end Range

/-! ## Dispatch of `getGeometry` -/

section Dispatch

variable {α : Type} [LinearOrderedField α] [FloorRing α]

/-- Adding 8 to the argument does not change `mod(x, 8.0)`. -/
theorem glslMod_add_eight (x : α) : glslMod (x + 8) 8.0 = glslMod x 8.0 := by
  unfold glslMod glslFloor
  have h : (x + 8) / 8.0 = x / 8.0 + 1 := by norm_num; ring
  rw [h, Int.floor_add_one]
  push_cast
  norm_num
  ring

theorem geomIndex_add_eight (x : α) : geomIndex (x + 8) = geomIndex x := by
  unfold geomIndex
  rw [glslMod_add_eight]

/-- For an integer `t`, `mod(t, 8.0)` is the non-negative remainder `t % 8`. -/
theorem glslMod_intCast (t : ℤ) : glslMod (t : α) 8.0 = ((t % 8 : ℤ) : α) := by
  unfold glslMod glslFloor
  have hdiv : ⌊(t : α) / 8.0⌋ = t / 8 := by
    rw [Int.floor_eq_iff]
    have h1 : (t : α) = ((8 * (t / 8) + t % 8 : ℤ) : α) := by
      rw [Int.ediv_add_emod]
    have h2 : (0 : α) ≤ ((t % 8 : ℤ) : α) := by
      exact_mod_cast Int.emod_nonneg t (by norm_num)
    have h3 : ((t % 8 : ℤ) : α) < 8 := by
      exact_mod_cast Int.emod_lt_of_pos t (by norm_num)
    push_cast at h1
    constructor
    · rw [le_div_iff₀ (by norm_num)]
      norm_num
      linarith
    · rw [div_lt_iff₀ (by norm_num)]
      norm_num
      linarith
  rw [hdiv]
  have h1 : (t : α) = ((8 * (t / 8) + t % 8 : ℤ) : α) := by
    rw [Int.ediv_add_emod]
  push_cast at h1
  norm_num
  linarith

theorem geomIndex_intCast (t : ℤ) : geomIndex (t : α) = t % 8 := by
  unfold geomIndex
  rw [glslMod_intCast]
  unfold glslInt
  have h2 : (0 : α) ≤ ((t % 8 : ℤ) : α) := by
    exact_mod_cast Int.emod_nonneg t (by norm_num)
  rw [if_pos h2, Int.floor_intCast]

/-- Claim C2. For every integer `geometryType` `t` (negative ones included), every
point and every `gridSize`, `getGeometry(p, g, t)` equals `getGeometry(p, g, t + 8)`. -/
theorem getGeometry_periodic (B : Builtins α) (u_time : α) (p : Vec3 α) (gridSize : α)
    (t : ℤ) :
    getGeometry B u_time p gridSize (t : α)
      = getGeometry B u_time p gridSize (((t + 8 : ℤ) : α)) := by
  have h : geomIndex (((t + 8 : ℤ) : α)) = geomIndex (t : α) := by
    push_cast
    exact geomIndex_add_eight (t : α)
  unfold getGeometry
  rw [h]

/-- Claim C3. For every integer `geometryType` `t`, `getGeometry` dispatches on the
non-negative remainder `t % 8`: the branch taken is the entry number `t % 8` of the
list tetrahedron, hypercube, sphere, torus, Klein, fractal, wave, crystal; the value
returned is the value of that lattice function (some lattice is always selected), and
`crystalLattice` is selected exactly when `t % 8 = 7`. -/
theorem getGeometry_dispatch (t : ℤ) :
    geomIndex (t : α) = t % 8 ∧
    latticeOrder.get? (t % 8).toNat = some (selectedLattice (t : α)) ∧
    (∀ (B : Builtins α) (u_time : α) (p : Vec3 α) (gridSize : α),
      getGeometry B u_time p gridSize (t : α)
        = (selectedLattice (t : α)).eval B u_time p gridSize) ∧
    (selectedLattice (t : α) = Lattice.crystal ↔ t % 8 = 7) := by
  have hg : geomIndex (t : α) = t % 8 := geomIndex_intCast t
  have h0 : 0 ≤ t % 8 := Int.emod_nonneg t (by norm_num)
  have h8 : t % 8 < 8 := Int.emod_lt_of_pos t (by norm_num)
  refine ⟨hg, ?_, fun B u_time p gridSize => getGeometry_eq_eval B u_time p gridSize _, ?_⟩
  · unfold selectedLattice
    rw [hg]
    generalize t % 8 = m at h0 h8
    interval_cases m <;> simp [latticeOrder]
  · unfold selectedLattice
    rw [hg]
    generalize t % 8 = m at h0 h8
    interval_cases m <;> simp

end Dispatch

/-! ## Dependence of the presence value on the elapsed time -/

section TimeDependence

variable {α : Type} [LinearOrderedField α] [FloorRing α]

/-- Claim C4, as amended. For every `geometryType` whose dispatch index is not 6 (the
seven lattices other than wave), the presence value returned by `getGeometry` is the
same for all values of the elapsed time `u_time`: it is determined by the point,
`gridSize` and `geometryType` alone. -/
theorem getGeometry_time_independent (B : Builtins α) (p : Vec3 α)
    (gridSize geometryType : α) (h : geomIndex geometryType ≠ 6) (time1 time2 : α) :
    getGeometry B time1 p gridSize geometryType
      = getGeometry B time2 p gridSize geometryType := by
  unfold getGeometry
  simp only [if_neg h]

theorem geomIndex_six_real : geomIndex (6 : ℝ) = 6 := by
  have h := geomIndex_intCast (α := ℝ) 6
  norm_num at h
  exact h

theorem geomIndex_two_real : geomIndex (2 : ℝ) = 2 := by
  have h := geomIndex_intCast (α := ℝ) 2
  norm_num at h
  exact h

theorem getGeometry_wave_real (u_time : ℝ) (p : Vec3 ℝ) (gridSize : ℝ) :
    getGeometry realBuiltins u_time p gridSize 6 = waveLattice realBuiltins u_time p gridSize := by
  unfold getGeometry
  simp [geomIndex_six_real]

/-- With wave selected, at the point `(1/2, 1/2, 0)` and `gridSize` 1, the presence
at elapsed time 0 is `1/2`. -/
theorem wave_at_time_zero :
    waveLattice realBuiltins 0 ⟨1 / 2, 1 / 2, 0⟩ 1 = 1 / 2 := by
  unfold waveLattice smoothstep clamp
  simp only [realBuiltins]
  norm_num

/-- With wave selected, at the same point the presence at elapsed time 1000 exceeds `1/2`. -/
theorem wave_at_time_thousand :
    1 / 2 < waveLattice realBuiltins 1000 ⟨1 / 2, 1 / 2, 0⟩ 1 := by
  have hs : (3 / 4 : ℝ) < Real.sin 1 := by
    have h := Real.sin_gt_sub_cube (x := 1) one_pos le_rfl
    norm_num at h
    exact h
  have hs1 : Real.sin 1 ≤ 1 := Real.sin_le_one 1
  have hw : (27 / 64 : ℝ) < Real.sin 1 * Real.sin 1 * Real.sin 1 := by
    nlinarith [mul_pos (sub_pos.2 hs) (sub_pos.2 hs),
      mul_pos (mul_pos (sub_pos.2 hs) (sub_pos.2 hs)) (sub_pos.2 hs)]
  unfold waveLattice smoothstep clamp
  simp only [realBuiltins]
  norm_num
  set w := Real.sin 1 * Real.sin 1 * Real.sin 1 with hwdef
  have ht0 : (59 / 64 : ℝ) ≤ min (max ((w + 1 / 2)) 0) 1 := by
    refine le_min (le_max_of_le_left ?_) (by norm_num)
    linarith
  have ht1 : min (max ((w + 1 / 2)) 0) 1 ≤ 1 := min_le_right _ _
  nlinarith [mul_nonneg (sub_nonneg.2 ht0) (sub_nonneg.2 ht0)]

/-- Claim C4, counterexample. With `geometryType` 6 (wave), the same point `(1/2, 1/2, 0)`
and the same `gridSize` 1, the presence value at elapsed time 0 is smaller than the
presence value at elapsed time 1000: the two evaluations differ. -/
theorem getGeometry_wave_depends_on_time :
    getGeometry realBuiltins 0 ⟨1 / 2, 1 / 2, 0⟩ 1 6
      < getGeometry realBuiltins 1000 ⟨1 / 2, 1 / 2, 0⟩ 1 6 := by
  rw [getGeometry_wave_real, getGeometry_wave_real, wave_at_time_zero]
  exact wave_at_time_thousand

/-- Witness of `getGeometry_time_independent`: `geometryType` 2 (sphere), elapsed
times 0 and 1000. -/
theorem getGeometry_time_independent_witness :
    geomIndex (2 : ℝ) ≠ 6 ∧
    getGeometry realBuiltins 0 ⟨1 / 2, 1 / 2, 0⟩ 1 2
      = getGeometry realBuiltins 1000 ⟨1 / 2, 1 / 2, 0⟩ 1 2 :=
  ⟨by rw [geomIndex_two_real]; decide,
   getGeometry_time_independent realBuiltins ⟨1 / 2, 1 / 2, 0⟩ 1 2
    (by rw [geomIndex_two_real]; decide) 0 1000⟩

end TimeDependence

/-! ## Layer derivation -/

section Layers

variable {α : Type} [LinearOrderedField α]

/-- Claim C5. The five renderers created by the `load` handler receive, in this order:
background = `P` with density x0.4, speed x0.2, intensity 0.2, hue +0; shadow = `P`
with density x0.8, speed x0.3, intensity 0.4, hue +180; content = `P` itself;
highlight = `P` with density x1.5, speed x0.8, intensity 0.6, hue +60; accent = `P`
with density x2.0, speed x0.4, intensity 0.3, hue +300; geometry, chaos, morph and
saturation are those of `P` in all five.  For the example parameter set the shadow
layer gets density 1.6, speed 0.3, intensity 0.4 and hue 270. -/
theorem loadRenderers_params (P : Params α) (program : Bool) (startTime : α) :
    (loadRenderers P program startTime).map (fun r => (r.role, r.params)) =
      [("background",
          { geometry := P.geometry, density := P.density * 0.4, speed := P.speed * 0.2,
            chaos := P.chaos, morph := P.morph, hue := P.hue + 0,
            saturation := P.saturation, intensity := 0.2 }),
       ("shadow",
          { geometry := P.geometry, density := P.density * 0.8, speed := P.speed * 0.3,
            chaos := P.chaos, morph := P.morph, hue := P.hue + 180,
            saturation := P.saturation, intensity := 0.4 }),
       ("content", P),
       ("highlight",
          { geometry := P.geometry, density := P.density * 1.5, speed := P.speed * 0.8,
            chaos := P.chaos, morph := P.morph, hue := P.hue + 60,
            saturation := P.saturation, intensity := 0.6 }),
       ("accent",
          { geometry := P.geometry, density := P.density * 2.0, speed := P.speed * 0.4,
            chaos := P.chaos, morph := P.morph, hue := P.hue + 300,
            saturation := P.saturation, intensity := 0.3 })] ∧
    ((loadRenderers (exampleParams : Params α) program startTime).map
        (fun r => (r.role, r.params.density, r.params.speed, r.params.intensity,
          r.params.hue))).get? 1
      = some ("shadow", 1.6, 0.3, 0.4, 270) := by
  constructor
  · simp [loadRenderers, layerParams, StandaloneHolographicRenderer.construct,
      backgroundParams, shadowParams, contentParams, highlightParams, accentParams]
  · simp [loadRenderers, layerParams, StandaloneHolographicRenderer.construct,
      shadowParams, exampleParams]
    norm_num

end Layers

/-! ## Defaults of the `params` object -/

section Defaults

variable {α : Type} [LinearOrderedField α]

/-- The `||` substitutions of the literal, taken by themselves: an absent field
(`undefined`) yields the default of its substitution (geometry 0, density 1.0, speed
0.5, chaos 0, morph 0, hue 0, saturation 0.8, intensity 0.5), and the empty parameter
set yields the eight defaults. -/
theorem exportParams_absent_defaults (v : VariationParameters α) :
    (exportParams { v with geometryType := .undefined }).geometry = .number 0 ∧
    (exportParams { v with density := .undefined }).density = .number 1.0 ∧
    (exportParams { v with speed := .undefined }).speed = .number 0.5 ∧
    (exportParams { v with chaos := .undefined }).chaos = .number 0 ∧
    (exportParams { v with morph := .undefined }).morph = .number 0 ∧
    (exportParams { v with hue := .undefined }).hue = .number 0 ∧
    (exportParams { v with saturation := .undefined }).saturation = .number 0.8 ∧
    (exportParams { v with intensity := .undefined }).intensity = .number 0.5 ∧
    exportParams (emptyParameters : VariationParameters α) =
      { geometry := .number 0, density := .number 1.0, speed := .number 0.5,
        chaos := .number 0, morph := .number 0, hue := .number 0,
        saturation := .number 0.8, intensity := .number 0.5 } := by
  simp [exportParams, emptyParameters, JSValue.or, JSValue.truthy]
  norm_num

/-- The `||` substitutions of the literal, taken by themselves: a falsy value
(`undefined`, `null`, `false`, `0`, `NaN`, the empty string) yields the default of the
substitution and a truthy value yields that value; every non-empty string is truthy. -/
theorem exportParams_falsy_truthy (v : VariationParameters α) (x : JSValue α) :
    (x.truthy = false →
      (exportParams { v with geometryType := x }).geometry = .number 0 ∧
      (exportParams { v with density := x }).density = .number 1.0 ∧
      (exportParams { v with speed := x }).speed = .number 0.5 ∧
      (exportParams { v with chaos := x }).chaos = .number 0 ∧
      (exportParams { v with morph := x }).morph = .number 0 ∧
      (exportParams { v with hue := x }).hue = .number 0 ∧
      (exportParams { v with saturation := x }).saturation = .number 0.8 ∧
      (exportParams { v with intensity := x }).intensity = .number 0.5) ∧
    (x.truthy = true →
      (exportParams { v with geometryType := x }).geometry = x ∧
      (exportParams { v with density := x }).density = x ∧
      (exportParams { v with speed := x }).speed = x ∧
      (exportParams { v with chaos := x }).chaos = x ∧
      (exportParams { v with morph := x }).morph = x ∧
      (exportParams { v with hue := x }).hue = x ∧
      (exportParams { v with saturation := x }).saturation = x ∧
      (exportParams { v with intensity := x }).intensity = x) ∧
    ((x = .undefined ∨ x = .null ∨ x = .boolean false ∨ x = .number 0 ∨ x = .nan ∨
        x = .string "") ↔ x.truthy = false) ∧
    (∀ s : String, s ≠ "" → (JSValue.string s : JSValue α).truthy = true) := by
  refine ⟨fun h => ?_, fun h => ?_, ?_, fun s hs => ?_⟩
  · simp [exportParams, JSValue.or, h]
    norm_num
  · simp [exportParams, JSValue.or, h]
  · cases x <;> simp [JSValue.truthy]
  · simp [JSValue.truthy, hs]

theorem generateSingleVariationParams_ok (variation : Variation α)
    (hname : variation.name.isString = true)
    (hdensity : variation.parameters.density.isNumber = true)
    (hspeed : variation.parameters.speed.isNumber = true)
    (hchaos : variation.parameters.chaos.isNumber = true) :
    generateSingleVariationParams variation = .ok (exportParams variation.parameters) := by
  simp [generateSingleVariationParams, hname, hdensity, hspeed, hchaos]

theorem falsy_iff (x : JSValue α) :
    (x = .undefined ∨ x = .null ∨ x = .boolean false ∨ x = .number 0 ∨ x = .nan ∨
      x = .string "") ↔ x.truthy = false := by
  cases x <;> simp [JSValue.truthy]

/-- Claim C6, the code at the failing input. For the variation named "Empty" whose
parameter set is empty, `generateSingleVariationHTML` throws a `TypeError` (at
`density.toFixed(2)`, before the `params` literal) and writes no params; the same `||`
literal, which `generateSingleCardDemo` reaches without a `toFixed` call, gives exactly
the documented defaults there. -/
theorem generateSingleVariationParams_empty_throws :
    generateSingleVariationParams emptyVariation = .error .typeError ∧
    generateSingleCardDemoParams emptyVariation =
      .ok { geometry := .number 0, density := .number 1.0, speed := .number 0.5,
            chaos := .number 0, morph := .number 0, hue := .number 0,
            saturation := .number 0.8, intensity := .number 0.5 } := by
  constructor
  · simp [generateSingleVariationParams, emptyVariation, emptyParameters, JSValue.isString,
      JSValue.isNumber]
  · simp [generateSingleCardDemoParams, emptyVariation, emptyParameters, JSValue.isString,
      exportParams, JSValue.or, JSValue.truthy]
    norm_num

/-- Claim C7, counterexample. For the variation named "Red" with density 1.2, speed 0.5,
chaos 0 and the non-empty string `hue: "red"`, `generateSingleVariationHTML` throws
nothing, and the `hue` substitution of the `params` literal has the value `"red"` and
writes the characters `red`, not the documented default 0. -/
theorem generateSingleVariationParams_writes_string :
    (generateSingleVariationParams redVariation).map (fun p => (p.hue, p.hue.written))
      = .ok (.string "red", .chars "red") := by
  simp [generateSingleVariationParams, redVariation, emptyParameters, JSValue.isString,
    JSValue.isNumber, exportParams, JSValue.or, JSValue.truthy, JSValue.written, Except.map]

/-- Claim C7, as amended. For every variation whose name is a string and whose density,
speed and chaos are numbers, `generateSingleVariationHTML` raises no failure and the
`params` literal holds, for each of the eight fields, the documented default when the
field is falsy (`undefined`, `null`, `false`, `0`, `NaN`, the empty string) and otherwise
the value of the field, for which no default is substituted; a non-empty string is
truthy, and what is written for it is the string itself, without quotes. -/
theorem generateSingleVariationParams_defaults (variation : Variation α)
    (hname : variation.name.isString = true)
    (hdensity : variation.parameters.density.isNumber = true)
    (hspeed : variation.parameters.speed.isNumber = true)
    (hchaos : variation.parameters.chaos.isNumber = true) :
    generateSingleVariationParams variation = .ok (exportParams variation.parameters) ∧
    (exportParams variation.parameters).geometry
      = (if variation.parameters.geometryType.truthy = true
          then variation.parameters.geometryType else .number 0) ∧
    (exportParams variation.parameters).density
      = (if variation.parameters.density.truthy = true
          then variation.parameters.density else .number 1.0) ∧
    (exportParams variation.parameters).speed
      = (if variation.parameters.speed.truthy = true
          then variation.parameters.speed else .number 0.5) ∧
    (exportParams variation.parameters).chaos
      = (if variation.parameters.chaos.truthy = true
          then variation.parameters.chaos else .number 0) ∧
    (exportParams variation.parameters).morph
      = (if variation.parameters.morph.truthy = true
          then variation.parameters.morph else .number 0) ∧
    (exportParams variation.parameters).hue
      = (if variation.parameters.hue.truthy = true
          then variation.parameters.hue else .number 0) ∧
    (exportParams variation.parameters).saturation
      = (if variation.parameters.saturation.truthy = true
          then variation.parameters.saturation else .number 0.8) ∧
    (exportParams variation.parameters).intensity
      = (if variation.parameters.intensity.truthy = true
          then variation.parameters.intensity else .number 0.5) ∧
    (∀ x : JSValue α,
      (x = .undefined ∨ x = .null ∨ x = .boolean false ∨ x = .number 0 ∨ x = .nan ∨
        x = .string "") ↔ x.truthy = false) ∧
    (∀ s : String, s ≠ "" →
      (JSValue.string s : JSValue α).truthy = true ∧
      (JSValue.string s : JSValue α).written = .chars s) := by
  have h00 : (0.0 : α) = 0 := by norm_num
  refine ⟨generateSingleVariationParams_ok variation hname hdensity hspeed hchaos,
    ?_, ?_, ?_, ?_, ?_, ?_, ?_, ?_, falsy_iff, fun s hs => ?_⟩
  · simp [exportParams, JSValue.or]
  · simp [exportParams, JSValue.or]
  · simp [exportParams, JSValue.or]
  · simp [exportParams, JSValue.or, h00]
  · simp [exportParams, JSValue.or, h00]
  · simp [exportParams, JSValue.or]
  · simp [exportParams, JSValue.or]
  · simp [exportParams, JSValue.or]
  · exact ⟨by simp [JSValue.truthy, hs], rfl⟩

/-- Witness of `generateSingleVariationParams_defaults`: the variation "Red", for which
the document is produced. -/
theorem generateSingleVariationParams_defaults_witness :
    redVariation.name.isString = true ∧
    redVariation.parameters.density.isNumber = true ∧
    redVariation.parameters.speed.isNumber = true ∧
    redVariation.parameters.chaos.isNumber = true ∧
    generateSingleVariationParams redVariation = .ok (exportParams redVariation.parameters) :=
  ⟨rfl, rfl, rfl, rfl,
   (generateSingleVariationParams_defaults redVariation rfl rfl rfl rfl).1⟩

end Defaults

/-! ## Decay of the click intensity -/

section Decay

variable {α : Type} [LinearOrderedField α]

theorem render_fields (r : StandaloneHolographicRenderer α) (f : Frame α)
    (hp : r.program = true) :
    (r.render f).1.program = true ∧ (r.render f).1.clickDecay = r.clickDecay ∧
    (r.render f).1.clickIntensity = r.clickIntensity * r.clickDecay := by
  unfold StandaloneHolographicRenderer.render
  simp [hp]

theorem renderFrames_cons (f : Frame α) (frames : List (Frame α))
    (r : StandaloneHolographicRenderer α) :
    renderFrames (f :: frames) r = renderFrames frames (r.render f).1 := by
  simp [renderFrames]

/-- After the frames `frames` the click intensity is the initial one times the decay
factor to the power of the number of frames. -/
theorem renderFrames_clickIntensity (frames : List (Frame α))
    (r : StandaloneHolographicRenderer α) (hp : r.program = true) :
    (renderFrames frames r).clickIntensity
      = r.clickIntensity * r.clickDecay ^ frames.length := by
  induction frames generalizing r with
  | nil => simp [renderFrames]
  | cons f frames ih =>
    obtain ⟨h1, h2, h3⟩ := render_fields r f hp
    rw [renderFrames_cons, ih _ h1, h2, h3, List.length_cons, pow_succ]
    ring

/-- Claim C8. For a renderer with a valid program, decay factor 0.95 (the constructor's
value) and click intensity `c0 ≥ 0`, after any `N` rendered frames with no click in
between the click intensity equals `c0 * 0.95 ^ N` and is not below 0; starting from
1.0 it equals `0.95 ^ N`. -/
theorem clickIntensity_decay (r : StandaloneHolographicRenderer α)
    (frames : List (Frame α)) (hp : r.program = true) (hd : r.clickDecay = 0.95)
    (hc : 0 ≤ r.clickIntensity) :
    (renderFrames frames r).clickIntensity = r.clickIntensity * 0.95 ^ frames.length ∧
    0 ≤ (renderFrames frames r).clickIntensity ∧
    (r.clickIntensity = 1.0 →
      (renderFrames frames r).clickIntensity = 0.95 ^ frames.length) := by
  have h := renderFrames_clickIntensity frames r hp
  rw [hd] at h
  refine ⟨h, ?_, fun h1 => ?_⟩
  · rw [h]
    exact mul_nonneg hc (pow_nonneg (by norm_num) _)
  · rw [h, h1]
    norm_num

/-- Every renderer built by the constructor with a valid program is in the initial
interaction state. -/
theorem loadRenderers_initial (params : Params α) (startTime : α) :
    ∀ r ∈ loadRenderers params true startTime,
      r.program = true ∧ r.clickDecay = 0.95 ∧ r.clickIntensity = 0 := by
  intro r hr
  simp only [loadRenderers, layerParams, List.map_cons, List.map_nil, List.mem_cons,
    List.mem_singleton, List.not_mem_nil, or_false] at hr
  rcases hr with h | h | h | h | h <;> subst h <;>
    simp [StandaloneHolographicRenderer.construct] <;> norm_num

/-- What a click does to a renderer in the initial interaction state. -/
theorem click_initial (rs : List (StandaloneHolographicRenderer α))
    (hinit : ∀ r ∈ rs, r.program = true ∧ r.clickDecay = 0.95 ∧ r.clickIntensity = 0) :
    ∀ r ∈ click rs, r.program = true ∧ r.clickDecay = 0.95 ∧ r.clickIntensity = 0.3 := by
  intro r hr
  simp only [click, List.mem_map] at hr
  obtain ⟨r0, hr0, rfl⟩ := hr
  obtain ⟨h1, h2, h3⟩ := hinit r0 hr0
  refine ⟨h1, h2, ?_⟩
  simp only [h3]
  norm_num

/-- Claim C9. Starting from renderers in the initial interaction state (valid program,
click intensity 0), one click sets the click intensity of every renderer to exactly
0.3, and after 68 subsequent rendered frames with no further click it is below 0.01. -/
theorem click_then_68_frames (rs : List (StandaloneHolographicRenderer α))
    (hinit : ∀ r ∈ rs, r.program = true ∧ r.clickDecay = 0.95 ∧ r.clickIntensity = 0)
    (frames : List (Frame α)) (hlen : frames.length = 68) :
    ∀ r ∈ click rs, r.clickIntensity = 0.3 ∧
      (renderFrames frames r).clickIntensity < 0.01 := by
  intro r hr
  obtain ⟨h1, h2, h3⟩ := click_initial rs hinit r hr
  refine ⟨h3, ?_⟩
  rw [renderFrames_clickIntensity frames r h1, h2, h3, hlen]
  norm_num

/-- Claim C10, as amended. After one click from the initial state and no further click,
the number of rendered frames needed for the click intensity to fall below 0.01 is
exactly 67: it is at least 0.01 after every number of frames up to 66 and below 0.01
after 67 frames or more. -/
theorem click_threshold_67 (rs : List (StandaloneHolographicRenderer α))
    (hinit : ∀ r ∈ rs, r.program = true ∧ r.clickDecay = 0.95 ∧ r.clickIntensity = 0)
    (frames : List (Frame α)) :
    ∀ r ∈ click rs,
      (frames.length ≤ 66 → 0.01 ≤ (renderFrames frames r).clickIntensity) ∧
      (67 ≤ frames.length → (renderFrames frames r).clickIntensity < 0.01) := by
  intro r hr
  obtain ⟨h1, h2, h3⟩ := click_initial rs hinit r hr
  rw [renderFrames_clickIntensity frames r h1, h2, h3]
  have hd0 : (0 : α) ≤ 0.95 := by norm_num
  have hd1 : (0.95 : α) ≤ 1 := by norm_num
  constructor
  · intro hle
    have hpow : (0.95 : α) ^ 66 ≤ 0.95 ^ frames.length :=
      pow_le_pow_of_le_one hd0 hd1 hle
    have h66 : (0.01 : α) ≤ 0.3 * 0.95 ^ 66 := by norm_num
    have h03 : (0 : α) ≤ 0.3 := by norm_num
    calc (0.01 : α) ≤ 0.3 * 0.95 ^ 66 := h66
      _ ≤ 0.3 * 0.95 ^ frames.length := mul_le_mul_of_nonneg_left hpow h03
  · intro hge
    have hpow : (0.95 : α) ^ frames.length ≤ 0.95 ^ 67 :=
      pow_le_pow_of_le_one hd0 hd1 hge
    have h67 : (0.3 : α) * 0.95 ^ 67 < 0.01 := by norm_num
    have h03 : (0 : α) ≤ 0.3 := by norm_num
    calc (0.3 : α) * 0.95 ^ frames.length ≤ 0.3 * 0.95 ^ 67 :=
          mul_le_mul_of_nonneg_left hpow h03
      _ < 0.01 := h67

/-- Witness of `clickIntensity_decay`: the content renderer with click intensity 1.0,
two frames. -/
theorem clickIntensity_decay_witness :
    saturatedRenderer.program = true ∧ saturatedRenderer.clickDecay = 0.95 ∧
    0 ≤ saturatedRenderer.clickIntensity ∧
    (renderFrames [sampleFrame, sampleFrame] saturatedRenderer).clickIntensity
      = saturatedRenderer.clickIntensity * 0.95 ^ 2 :=
  ⟨rfl, rfl, by norm_num [saturatedRenderer],
   (clickIntensity_decay saturatedRenderer [sampleFrame, sampleFrame] rfl rfl
      (by norm_num [saturatedRenderer])).1⟩

/-- Witness of `click_then_68_frames`: the five renderers of the scenario session. -/
theorem click_then_68_frames_witness :
    (∀ r ∈ sessionRenderers,
      r.program = true ∧ r.clickDecay = 0.95 ∧ r.clickIntensity = 0) ∧
    (List.replicate 68 sampleFrame).length = 68 ∧
    ∀ r ∈ click sessionRenderers, r.clickIntensity = 0.3 ∧
      (renderFrames (List.replicate 68 sampleFrame) r).clickIntensity < 0.01 :=
  ⟨loadRenderers_initial sessionParams 0, List.length_replicate 68 sampleFrame,
   click_then_68_frames sessionRenderers (loadRenderers_initial sessionParams 0)
    (List.replicate 68 sampleFrame) (List.length_replicate 68 sampleFrame)⟩

/-- Claim C10, counterexample. In the scenario session, after one click from the initial
state and 67 rendered frames, the click intensity of every renderer is already below
0.01 (it is `0.3 * 0.95 ^ 67`, about 0.00965), so it is not "still at least 0.01
after 67 frames". -/
theorem click_below_threshold_after_67 :
    ((click sessionRenderers).all fun r =>
      decide ((renderFrames (List.replicate 67 sampleFrame) r).clickIntensity < 0.01))
      = true := by
  rw [List.all_eq_true]
  intro r hr
  rw [decide_eq_true_iff]
  obtain ⟨h1, h2, h3⟩ :=
    click_initial sessionRenderers (loadRenderers_initial sessionParams 0) r hr
  rw [renderFrames_clickIntensity _ r h1, h2, h3, List.length_replicate]
  norm_num

/-- Witness of `click_threshold_67`: in the scenario session the click intensity is at
least 0.01 after 66 frames and below 0.01 after 67 frames. -/
theorem click_threshold_67_witness :
    (∀ r ∈ sessionRenderers,
      r.program = true ∧ r.clickDecay = 0.95 ∧ r.clickIntensity = 0) ∧
    ∀ r ∈ click sessionRenderers,
      0.01 ≤ (renderFrames (List.replicate 66 sampleFrame) r).clickIntensity ∧
      (renderFrames (List.replicate 67 sampleFrame) r).clickIntensity < 0.01 :=
  ⟨loadRenderers_initial sessionParams 0, fun r hr =>
    ⟨(click_threshold_67 sessionRenderers (loadRenderers_initial sessionParams 0)
        (List.replicate 66 sampleFrame) r hr).1 (by simp),
     (click_threshold_67 sessionRenderers (loadRenderers_initial sessionParams 0)
        (List.replicate 67 sampleFrame) r hr).2 (by simp)⟩⟩

end Decay

/-! ## Bounds of the click intensity over event sequences -/

section ClickBounds

variable {α : Type} [LinearOrderedField α]

theorem render_clickBounded (r : StandaloneHolographicRenderer α) (f : Frame α)
    (h : ClickBounded r) : ClickBounded (r.render f).1 := by
  obtain ⟨hd, h0, h1⟩ := h
  unfold StandaloneHolographicRenderer.render
  by_cases hp : r.program = false
  · simp only [hp, if_true]
    exact ⟨hd, h0, h1⟩
  · simp only [hp, if_false]
    refine ⟨hd, ?_, ?_⟩
    · simp only [hd]
      exact mul_nonneg h0 (by norm_num)
    · simp only [hd]
      have h95 : (0.95 : α) ≤ 1 := by norm_num
      calc r.clickIntensity * 0.95 ≤ 1 * 1 :=
            mul_le_mul h1 h95 (by norm_num) zero_le_one
        _ = 1 := one_mul 1

theorem renderAt_clickBounded (f : Frame α) (i : Nat)
    (rs : List (StandaloneHolographicRenderer α)) (h : ∀ r ∈ rs, ClickBounded r) :
    ∀ r ∈ renderAt f i rs, ClickBounded r := by
  induction rs generalizing i with
  | nil => intro r hr; simp [renderAt] at hr
  | cons r0 rs ih =>
    have h0 : ClickBounded r0 := h r0 (List.mem_cons_self _ _)
    have hrest : ∀ r ∈ rs, ClickBounded r := fun r hr => h r (List.mem_cons_of_mem _ hr)
    cases i with
    | zero =>
      intro r hr
      simp only [renderAt, List.mem_cons] at hr
      rcases hr with hr | hr
      · rw [hr]
        exact render_clickBounded r0 f h0
      · exact hrest r hr
    | succ i =>
      intro r hr
      simp only [renderAt, List.mem_cons] at hr
      rcases hr with hr | hr
      · rw [hr]
        exact h0
      · exact ih i hrest r hr

theorem click_clickBounded (rs : List (StandaloneHolographicRenderer α))
    (h : ∀ r ∈ rs, ClickBounded r) : ∀ r ∈ click rs, ClickBounded r := by
  intro r hr
  simp only [click, List.mem_map] at hr
  obtain ⟨r0, hr0, rfl⟩ := hr
  obtain ⟨hd, h0, _⟩ := h r0 hr0
  refine ⟨hd, ?_, ?_⟩
  · exact le_min (by norm_num) (add_nonneg h0 (by norm_num))
  · show min (1.0 : α) (r0.clickIntensity + 0.3) ≤ 1
    calc min (1.0 : α) (r0.clickIntensity + 0.3) ≤ 1.0 := min_le_left _ _
      _ = 1 := by norm_num

theorem mousemove_clickBounded (B : Builtins α) (e : MouseMove α)
    (rs : List (StandaloneHolographicRenderer α)) (h : ∀ r ∈ rs, ClickBounded r) :
    ∀ r ∈ mousemove B e rs, ClickBounded r := by
  intro r hr
  simp only [mousemove, List.mem_map] at hr
  obtain ⟨r0, hr0, rfl⟩ := hr
  exact h r0 hr0

theorem runEvents_clickBounded (B : Builtins α) (events : List (Event α))
    (rs : List (StandaloneHolographicRenderer α)) (h : ∀ r ∈ rs, ClickBounded r) :
    ∀ r ∈ runEvents B events rs, ClickBounded r := by
  induction events generalizing rs with
  | nil => simpa [runEvents] using h
  | cons ev events ih =>
    have hstep : ∀ r ∈ handleEvent B rs ev, ClickBounded r := by
      cases ev with
      | click => exact click_clickBounded rs h
      | mousemove e => exact mousemove_clickBounded B e rs h
      | frame i f => exact renderAt_clickBounded f i rs h
    have := ih (handleEvent B rs ev) hstep
    simpa [runEvents] using this

/-- Claim C11. A click replaces the click intensity `c` of each renderer by
`min(1, c + 0.3)`; and for every finite sequence of click events, rendered frames (and
pointer moves) applied to renderers in the initial state (click intensity 0, decay
factor 0.95), the click intensity of each renderer stays within `[0, 1]`. -/
theorem clickIntensity_bounded (B : Builtins α) (events : List (Event α))
    (rs : List (StandaloneHolographicRenderer α))
    (hinit : ∀ r ∈ rs, r.clickDecay = 0.95 ∧ r.clickIntensity = 0) :
    (∀ l : List (StandaloneHolographicRenderer α),
      (click l).map (fun r => r.clickIntensity)
        = l.map (fun r => min 1 (r.clickIntensity + 0.3))) ∧
    ∀ r ∈ runEvents B events rs, 0 ≤ r.clickIntensity ∧ r.clickIntensity ≤ 1 := by
  constructor
  · intro l
    simp only [click, List.map_map]
    apply List.map_congr_left
    intro r _
    simp only [Function.comp]
    norm_num
  · intro r hr
    have hb : ∀ r ∈ rs, ClickBounded r := by
      intro r hr
      obtain ⟨hd, hc⟩ := hinit r hr
      exact ⟨hd, by rw [hc], by rw [hc]; exact zero_le_one⟩
    exact (runEvents_clickBounded B events rs hb r hr).2

/-- Witness of `clickIntensity_bounded`: the five renderers of the example over the
reals and a sample event sequence. -/
theorem clickIntensity_bounded_witness :
    (∀ r ∈ realRenderers, r.clickDecay = 0.95 ∧ r.clickIntensity = 0) ∧
    ∀ r ∈ runEvents realBuiltins sampleEvents realRenderers,
      0 ≤ r.clickIntensity ∧ r.clickIntensity ≤ 1 :=
  ⟨fun r hr => (loadRenderers_initial exampleParams 0 r hr).2,
   (clickIntensity_bounded realBuiltins sampleEvents realRenderers
      (fun r hr => (loadRenderers_initial exampleParams 0 r hr).2)).2⟩

end ClickBounds

/-! ## The drag intensity -/

section Drag

variable {α : Type} [LinearOrderedField α]

theorem min_one_eq_clamp (x : α) (hx : 0 ≤ x) : min 1.0 x = clamp x 0 1 := by
  unfold clamp
  rw [max_eq_left hx, min_comm]
  norm_num

/-- Claim C12. For a square root that is never negative, after a pointer-move event
with movement delta `(dx, dy)` the drag intensity of every renderer equals
`clamp(sqrt(dx^2 + dy^2) / 40, 0, 1)`: it lies in `[0,1]`, equals 1 exactly when the
movement magnitude is at least 40, and is the same whatever the renderers held before
the event. -/
theorem mousemove_dragIntensity (B : Builtins α) (hsqrt : ∀ x, 0 ≤ B.sqrt x)
    (e : MouseMove α) (rs : List (StandaloneHolographicRenderer α)) :
    (∀ r ∈ mousemove B e rs,
      r.mouseIntensity = clamp (movementMagnitude B e / 40) 0 1 ∧
      0 ≤ r.mouseIntensity ∧ r.mouseIntensity ≤ 1 ∧
      (r.mouseIntensity = 1 ↔ 40 ≤ movementMagnitude B e)) ∧
    (mousemove B e rs).map (fun r => r.mouseIntensity)
      = List.replicate rs.length (clamp (movementMagnitude B e / 40) 0 1) := by
  have hm : 0 ≤ movementMagnitude B e := hsqrt _
  have hdiv : 0 ≤ movementMagnitude B e / 40 := div_nonneg hm (by norm_num)
  have hval : min 1.0 (B.sqrt (e.movementX * e.movementX + e.movementY * e.movementY) / 40)
      = clamp (movementMagnitude B e / 40) 0 1 := min_one_eq_clamp _ hdiv
  constructor
  · intro r hr
    simp only [mousemove, List.mem_map] at hr
    obtain ⟨r0, _, rfl⟩ := hr
    simp only [hval]
    refine ⟨trivial, clamp_zero_one_nonneg _, clamp_zero_one_le_one _, ?_⟩
    unfold clamp
    rw [max_eq_left hdiv]
    constructor
    · intro h
      have h1 : (1 : α) ≤ movementMagnitude B e / 40 := by
        by_contra hlt
        rw [min_eq_left (le_of_lt (not_le.1 hlt))] at h
        exact hlt (le_of_eq h.symm)
      rw [le_div_iff₀ (by norm_num)] at h1
      linarith
    · intro h
      apply min_eq_right
      rw [le_div_iff₀ (by norm_num)]
      linarith
  · simp only [mousemove, List.map_map, hval]
    rw [List.eq_replicate_iff]
    constructor
    · simp
    · intro b hb
      simp only [List.mem_map, Function.comp] at hb
      obtain ⟨_, _, rfl⟩ := hb
      rfl

/-- Witness of `mousemove_dragIntensity`: the real square root and a pointer move by
`(30, 40)` pixels. -/
theorem mousemove_dragIntensity_witness :
    (∀ x, 0 ≤ realBuiltins.sqrt x) ∧
    (mousemove realBuiltins sampleMove realRenderers).map (fun r => r.mouseIntensity)
      = List.replicate realRenderers.length
          (clamp (movementMagnitude realBuiltins sampleMove / 40) 0 1) :=
  ⟨Real.sqrt_nonneg,
   (mousemove_dragIntensity realBuiltins Real.sqrt_nonneg sampleMove realRenderers).2⟩

end Drag

/-! ## The colour of a fragment -/

section ColourBasic

variable {α : Type} [LinearOrderedField α]

theorem smoothstep_of_ge (edge0 edge1 x : α) (h : edge0 < edge1) (hx : edge1 ≤ x) :
    smoothstep edge0 edge1 x = 1 := by
  have hq : 1 ≤ (x - edge0) / (edge1 - edge0) := by
    rw [le_div_iff₀ (sub_pos.2 h)]
    linarith
  have ht : clamp ((x - edge0) / (edge1 - edge0)) 0 1 = 1 := by
    unfold clamp
    exact min_eq_right (le_max_of_le_left hq)
  unfold smoothstep
  simp only [ht]
  norm_num

/-- A channel of `hsv2rgb` lies between `v * (1 - s)` and `v`. -/
theorem hsv_channel_bounds (p s v : α) (hs0 : 0 ≤ s) (hv : 0 ≤ v) :
    v * (1 - s) ≤ v * mix 1.0 (clamp (p - 1.0) 0.0 1.0) s ∧
    v * mix 1.0 (clamp (p - 1.0) 0.0 1.0) s ≤ v := by
  have h0 : (0 : α) ≤ clamp (p - 1.0) 0.0 1.0 := by
    have := clamp_zero_one_nonneg (p - 1.0)
    norm_num at this ⊢
    exact this
  have h1 : clamp (p - 1.0) 0.0 1.0 ≤ (1 : α) := by
    have := clamp_zero_one_le_one (p - 1.0)
    norm_num at this ⊢
    exact this
  unfold mix
  constructor
  · apply mul_le_mul_of_nonneg_left _ hv
    have := mul_nonneg h0 hs0
    norm_num
    linarith
  · have hle : (1.0 : α) * (1 - s) + clamp (p - 1.0) 0.0 1.0 * s ≤ 1 := by
      have := mul_le_mul_of_nonneg_right h1 hs0
      norm_num
      linarith
    calc v * ((1.0 : α) * (1 - s) + clamp (p - 1.0) 0.0 1.0 * s) ≤ v * 1 :=
          mul_le_mul_of_nonneg_left hle hv
      _ = v := mul_one v

end ColourBasic

section Colour

variable {α : Type} [LinearOrderedField α] [FloorRing α]

theorem fract_add_one (x : α) : fract (x + 1) = fract x := by
  unfold fract glslFloor
  rw [Int.floor_add_one]
  push_cast
  ring

theorem hsv2rgb_add_one (x s v : α) : hsv2rgb ⟨x + 1, s, v⟩ = hsv2rgb ⟨x, s, v⟩ := by
  have h : ∀ k : α, fract (x + 1 + k) = fract (x + k) := by
    intro k
    rw [show x + 1 + k = x + k + 1 by ring, fract_add_one]
  unfold hsv2rgb
  simp only [h]

/-- Every channel of `restColor` lies in `[0.04, 0.2]`. -/
theorem restColor_bounds (u : Uniforms α) :
    (0.04 ≤ (restColor u).x ∧ (restColor u).x ≤ 0.2) ∧
    (0.04 ≤ (restColor u).y ∧ (restColor u).y ≤ 0.2) ∧
    (0.04 ≤ (restColor u).z ∧ (restColor u).z ≤ 0.2) := by
  have key : ∀ p : α, 0.04 ≤ (0.2 : α) * mix 1.0 (clamp (p - 1.0) 0.0 1.0) 0.8 ∧
      (0.2 : α) * mix 1.0 (clamp (p - 1.0) 0.0 1.0) 0.8 ≤ 0.2 := by
    intro p
    obtain ⟨h1, h2⟩ := hsv_channel_bounds p (0.8 : α) (0.2 : α) (by norm_num) (by norm_num)
    refine ⟨?_, h2⟩
    calc (0.04 : α) = 0.2 * (1 - 0.8) := by norm_num
      _ ≤ _ := h1
  unfold restColor hsv2rgb
  exact ⟨key _, key _, key _⟩

/-- With presence 0 and interaction intensity 0, `main` writes `restColor` blended 90%
toward `(0.1, 0.1, 0.1)`. -/
theorem main_at_rest (B : Builtins α) (u : Uniforms α) (fragCoord : Vec2 α)
    (hl : fragmentLattice B u fragCoord = 0) (hm : u.mouseIntensity = 0) :
    main B u fragCoord =
      ⟨0.1 * (restColor u).x + 0.9 * 0.1, 0.1 * (restColor u).y + 0.9 * 0.1,
       0.1 * (restColor u).z + 0.9 * 0.1, 0.95⟩ := by
  have hbase : baseColor B u fragCoord = restColor u := by
    unfold baseColor restColor
    simp only [hl, hm]
    norm_num
  have hglow : mouseGlow B u fragCoord = 0 := by
    unfold mouseGlow
    rw [hm]
    ring
  have hlt : (0 : α) < 0.01 := by norm_num
  unfold main
  simp only [hl, hbase, hglow, hlt, if_true, mix]
  congr 1 <;> norm_num <;> ring

/-- Claim C13. For every hue, intensity, speed, elapsed time and pointer position,
when the lattice presence at a fragment is 0 and the combined interaction intensity is
0, the fragment colour is `c = hsv2rgb(h, 0.8, 0.2)` blended 90% toward
`(0.1, 0.1, 0.1)`, that is `0.1 * c + 0.9 * (0.1, 0.1, 0.1)` with alpha 0.95, and every
RGB channel lies in `[0.09, 0.11]`. -/
theorem suppressed_fragment_colour (B : Builtins α) (u : Uniforms α) (fragCoord : Vec2 α)
    (hl : fragmentLattice B u fragCoord = 0) (hm : u.mouseIntensity = 0) :
    main B u fragCoord =
      ⟨0.1 * (restColor u).x + 0.9 * 0.1, 0.1 * (restColor u).y + 0.9 * 0.1,
       0.1 * (restColor u).z + 0.9 * 0.1, 0.95⟩ ∧
    (0.09 ≤ (main B u fragCoord).x ∧ (main B u fragCoord).x ≤ 0.11) ∧
    (0.09 ≤ (main B u fragCoord).y ∧ (main B u fragCoord).y ≤ 0.11) ∧
    (0.09 ≤ (main B u fragCoord).z ∧ (main B u fragCoord).z ≤ 0.11) := by
  have hmain := main_at_rest B u fragCoord hl hm
  obtain ⟨⟨hx0, hx1⟩, ⟨hy0, hy1⟩, ⟨hz0, hz1⟩⟩ := restColor_bounds u
  refine ⟨hmain, ?_, ?_, ?_⟩ <;> rw [hmain] <;> simp only <;> norm_num at * <;>
    constructor <;> linarith

/-- Claim C14, as amended. For every fragment, the pointer-glow term is
`exp(-d * 1.5) * m * 0.2`, where `d` is the distance from the fragment to the pointer
and `m` the combined interaction intensity; it is added, scaled by 0.6, to the green
and blue channels and not to red, before the low-presence blend toward
`(0.1, 0.1, 0.1)`. -/
theorem glow_term (B : Builtins α) (u : Uniforms α) (fragCoord : Vec2 α) :
    main B u fragCoord =
      (if fragmentLattice B u fragCoord < 0.01 then
        ⟨mix (baseColor B u fragCoord).x 0.1 0.9,
         mix ((baseColor B u fragCoord).y
          + B.exp (-(mouseDist B u fragCoord) * 1.5) * u.mouseIntensity * 0.2 * 0.6) 0.1 0.9,
         mix ((baseColor B u fragCoord).z
          + B.exp (-(mouseDist B u fragCoord) * 1.5) * u.mouseIntensity * 0.2 * 0.6) 0.1 0.9,
         0.95⟩
      else
        ⟨(baseColor B u fragCoord).x,
         (baseColor B u fragCoord).y
          + B.exp (-(mouseDist B u fragCoord) * 1.5) * u.mouseIntensity * 0.2 * 0.6,
         (baseColor B u fragCoord).z
          + B.exp (-(mouseDist B u fragCoord) * 1.5) * u.mouseIntensity * 0.2 * 0.6,
         0.95⟩) := by
  have e1 : ∀ g : α, g * 0.0 * 0.6 = 0 := by
    intro g
    norm_num
  have e2 : ∀ g : α, g * 1.0 * 0.6 = g * 0.6 := by
    intro g
    norm_num
  unfold main mouseGlow
  by_cases h : fragmentLattice B u fragCoord < 0.01
  · simp only [h, if_true, e1, e2, add_zero]
  · simp only [h, if_false, e1, e2, add_zero]

/-- Claim C15. The HSV conversion has period 1 in the hue, `hsv2rgb(x + 1, s, v) =
hsv2rgb(x, s, v)` for every `x`, and therefore the fragment colour computed with
`u_hue = h + 360` equals the colour computed with `u_hue = h`, all other inputs equal. -/
theorem hue_wraps (B : Builtins α) (u : Uniforms α) (fragCoord : Vec2 α) :
    (∀ x s v : α, hsv2rgb ⟨x + 1, s, v⟩ = hsv2rgb ⟨x, s, v⟩) ∧
    main B { u with hue := u.hue + 360 } fragCoord = main B u fragCoord := by
  refine ⟨hsv2rgb_add_one, ?_⟩
  have hbase : baseColor B { u with hue := u.hue + 360 } fragCoord
      = baseColor B u fragCoord := by
    unfold baseColor fragmentLattice fragmentPoint fragmentUV aspectRatio shaderTime
    simp only []
    rw [← hsv2rgb_add_one (u.hue / 360.0 + u.time * 0.0004 * u.speed * 0.1
      + u.mouseIntensity * 0.2)]
    congr 2
    norm_num
    ring
  unfold main
  rw [hbase]
  rfl

end Colour

/-! ## Concrete fragments over the reals -/

section RealFragments

theorem geomIndex_seven_real : geomIndex (7 : ℝ) = 7 := by
  have h := geomIndex_intCast (α := ℝ) 7
  norm_num at h
  exact h

theorem fragmentLattice_rest :
    fragmentLattice realBuiltins restUniforms sampleFragment = 0 := by
  have hz : (fragmentPoint realBuiltins restUniforms sampleFragment).z = 0 := by
    simp [fragmentPoint, shaderTime, restUniforms, realBuiltins]
  unfold fragmentLattice getGeometry
  have h7 : geomIndex restUniforms.geometryType = 7 := geomIndex_seven_real
  simp only [h7]
  norm_num
  unfold crystalLattice
  have hq : |((fractCell (fragmentPoint realBuiltins restUniforms sampleFragment)
      restUniforms.density).subScalar 0.5).z| = 0.5 := by
    simp [fractCell, Vec3.subScalar, hz, fract, glslFloor]
    norm_num
  have hs := smoothstep_of_ge (0.3 : ℝ) 0.5
    (max (max
      |((fractCell (fragmentPoint realBuiltins restUniforms sampleFragment)
        restUniforms.density).subScalar 0.5).x|
      |((fractCell (fragmentPoint realBuiltins restUniforms sampleFragment)
        restUniforms.density).subScalar 0.5).y|)
      |((fractCell (fragmentPoint realBuiltins restUniforms sampleFragment)
        restUniforms.density).subScalar 0.5).z|)
    (by norm_num) (by rw [hq]; exact le_max_right _ _)
  simp only [hs]
  norm_num

/-- Witness of `suppressed_fragment_colour`: a crystal-lattice frame at elapsed time 0
with no interaction. -/
theorem suppressed_fragment_colour_witness :
    fragmentLattice realBuiltins restUniforms sampleFragment = 0 ∧
    restUniforms.mouseIntensity = 0 ∧
    (0.09 ≤ (main realBuiltins restUniforms sampleFragment).x ∧
      (main realBuiltins restUniforms sampleFragment).x ≤ 0.11) :=
  ⟨fragmentLattice_rest, rfl,
   (suppressed_fragment_colour realBuiltins restUniforms sampleFragment
      fragmentLattice_rest rfl).2.1⟩

theorem mouseDist_sample_pos : 0 < mouseDist realBuiltins glowUniforms sampleFragment := by
  unfold mouseDist length2
  simp only [realBuiltins]
  apply Real.sqrt_pos.2
  simp [fragmentUV, aspectRatio, glowUniforms, restUniforms, sampleFragment]
  norm_num

/-- Claim C14, counterexample. At the centre of pixel `(400, 300)` of an 800 x 600
canvas, with the pointer at `(0.5, 0.5)` and interaction intensity 0.3, the glow term
of the shader is larger than `exp(-5 * d * 1.5) * m * 0.2`. -/
theorem glow_exceeds_claimed :
    realBuiltins.exp (-5 * mouseDist realBuiltins glowUniforms sampleFragment * 1.5)
        * glowUniforms.mouseIntensity * 0.2
      < mouseGlow realBuiltins glowUniforms sampleFragment := by
  have hd := mouseDist_sample_pos
  have hm : (0 : ℝ) < glowUniforms.mouseIntensity := by
    simp only [glowUniforms]
    norm_num
  unfold mouseGlow
  simp only [realBuiltins] at hd ⊢
  have hexp : Real.exp (-5 * mouseDist ⟨Real.sqrt, Real.sin, Real.cos, Real.exp⟩
      glowUniforms sampleFragment * 1.5)
      < Real.exp (-(mouseDist ⟨Real.sqrt, Real.sin, Real.cos, Real.exp⟩
          glowUniforms sampleFragment) * 1.5) := by
    apply Real.exp_lt_exp.2
    nlinarith
  have h02 : (0 : ℝ) < 0.2 := by norm_num
  exact mul_lt_mul_of_pos_right (mul_lt_mul_of_pos_right hexp hm) h02

end RealFragments

/-! ## `getGeometryName` -/

section GeometryNameLookup

variable {α : Type} [LinearOrderedField α] [FloorRing α]

theorem geometryNamesAt_intCast (i : ℤ) (h0 : 0 ≤ i) :
    geometryNamesAt (.number (i : α)) = geometryNames.get? i.toNat := by
  have hc : (0 : α) ≤ (i : α) := by exact_mod_cast h0
  simp [geometryNamesAt, hc]

theorem geometryNamesAt_out_of_range (x : α)
    (h : ¬ ∃ i : ℤ, 0 ≤ i ∧ i ≤ 7 ∧ x = (i : α)) :
    geometryNamesAt (.number x) = none := by
  simp only [geometryNamesAt]
  split_ifs with hc
  · obtain ⟨hx0, hxi⟩ := hc
    have hf0 : 0 ≤ ⌊x⌋ := Int.floor_nonneg.2 hx0
    have h8 : 8 ≤ ⌊x⌋ := by
      by_contra hlt
      exact h ⟨⌊x⌋, hf0, by omega, hxi⟩
    have hlen : geometryNames.length ≤ (⌊x⌋).toNat := by
      simp only [geometryNames, List.length_cons, List.length_nil]
      omega
    exact List.get?_eq_none.2 hlen
  · rfl

/-- Claim C16. `getGeometryName(i)` returns the entry number `i` of the list
TETRAHEDRON, HYPERCUBE, SPHERE, TORUS, KLEIN BOTTLE, FRACTAL, WAVE, CRYSTAL for every
integer `i` with `0 ≤ i ≤ 7`, and "UNKNOWN" for every other numeric index (negative, 8
or larger, non-integer), for `NaN` and for `undefined`; it does not wrap modulo 8, so
index 8 gives "UNKNOWN". -/
theorem getGeometryName_lookup :
    (∀ i : ℤ, 0 ≤ i → i ≤ 7 →
      some (getGeometryName (.number (i : α)))
        = ["TETRAHEDRON", "HYPERCUBE", "SPHERE", "TORUS", "KLEIN BOTTLE", "FRACTAL",
            "WAVE", "CRYSTAL"].get? i.toNat) ∧
    (∀ x : α, (¬ ∃ i : ℤ, 0 ≤ i ∧ i ≤ 7 ∧ x = (i : α)) →
      getGeometryName (.number x) = "UNKNOWN") ∧
    getGeometryName (.undefined : GeometryId α) = "UNKNOWN" ∧
    getGeometryName (.nan : GeometryId α) = "UNKNOWN" ∧
    getGeometryName (.number 8 : GeometryId α) = "UNKNOWN" := by
  refine ⟨?_, ?_, rfl, rfl, ?_⟩
  · intro i h0 h7
    unfold getGeometryName
    rw [geometryNamesAt_intCast i h0]
    interval_cases i <;> simp [geometryNames]
  · intro x hx
    unfold getGeometryName
    rw [geometryNamesAt_out_of_range x hx]
  · unfold getGeometryName
    rw [geometryNamesAt_out_of_range]
    rintro ⟨i, _, h7, h8⟩
    have h : (8 : ℤ) = i := by exact_mod_cast h8
    omega

/-- Witness of `getGeometryName_lookup`: index 4 is KLEIN BOTTLE and index 1.5 is
"UNKNOWN". -/
theorem getGeometryName_lookup_witness :
    getGeometryName (.number ((4 : ℤ) : ℚ)) = "KLEIN BOTTLE" ∧
    getGeometryName (.number (3 / 2 : ℚ)) = "UNKNOWN" := by
  constructor
  · have h := (getGeometryName_lookup (α := ℚ)).1 4 (by decide) (by decide)
    simpa using h
  · apply (getGeometryName_lookup (α := ℚ)).2.1
    rintro ⟨i, _, _, h⟩
    have h2 : (3 : ℚ) = 2 * (i : ℚ) := by linarith
    have h3 : (3 : ℤ) = 2 * i := by exact_mod_cast h2
    omega

end GeometryNameLookup

/-! ## `escapeHtml` -/

section Escape

theorem mapLookup_mem_entities (c : Char) (h : matchesClass c = true) :
    mapLookup c ∈ entities := by
  simp only [matchesClass, Bool.or_eq_true, decide_eq_true_eq] at h
  rcases h with (((h | h) | h) | h) | h <;> subst h <;> decide

theorem entity_shape (e : String) (he : e ∈ entities) :
    ∃ tl : List Char, e.data = '&' :: tl ∧ ∀ c ∈ tl, c ≠ '&' ∧ NotMarkup c := by
  simp only [entities, List.mem_cons, List.mem_singleton, List.not_mem_nil, or_false] at he
  rcases he with h | h | h | h | h <;> subst h <;>
    exact ⟨_, rfl, by unfold NotMarkup; decide⟩

theorem not_matchesClass (c : Char) (h : ¬ matchesClass c = true) :
    c ≠ '&' ∧ NotMarkup c := by
  simp only [matchesClass, Bool.or_eq_true, decide_eq_true_eq, not_or] at h
  obtain ⟨⟨⟨⟨h1, h2⟩, h3⟩, h4⟩, h5⟩ := h
  exact ⟨h1, h2, h3, h4, h5⟩

theorem replaceMatches_append (a b : List Char) :
    replaceMatches (a ++ b) = replaceMatches a ++ replaceMatches b := by
  induction a with
  | nil => rfl
  | cons c cs ih =>
    show replaceMatches (c :: (cs ++ b)) = replaceMatches (c :: cs) ++ replaceMatches b
    simp only [replaceMatches, ih, List.append_assoc]

theorem replaceMatches_notMarkup (text : List Char) :
    ∀ c ∈ replaceMatches text, NotMarkup c := by
  induction text with
  | nil => intro c hc; simp [replaceMatches] at hc
  | cons c0 cs ih =>
    intro c hc
    simp only [replaceMatches, List.mem_append] at hc
    rcases hc with hc | hc
    · by_cases hm : matchesClass c0 = true
      · rw [if_pos hm] at hc
        obtain ⟨tl, htl, hall⟩ := entity_shape _ (mapLookup_mem_entities c0 hm)
        rw [htl, List.mem_cons] at hc
        rcases hc with hc | hc
        · rw [hc]
          unfold NotMarkup
          decide
        · exact (hall c hc).2
      · rw [if_neg hm, List.mem_singleton] at hc
        rw [hc]
        exact (not_matchesClass c0 hm).2
    · exact ih c hc

theorem ampersands_cons (c : Char) (out : List Char) (hc : c ≠ '&')
    (h : AmpersandsStartEntities out) : AmpersandsStartEntities (c :: out) := by
  intro pre post heq
  cases pre with
  | nil =>
    simp only [List.nil_append, List.cons.injEq] at heq
    exact absurd heq.1 hc
  | cons p pre =>
    simp only [List.cons_append, List.cons.injEq] at heq
    exact h pre post heq.2

theorem ampersands_append (tl out : List Char) (htl : ∀ c ∈ tl, c ≠ '&')
    (h : AmpersandsStartEntities out) : AmpersandsStartEntities (tl ++ out) := by
  induction tl with
  | nil => exact h
  | cons c cs ih =>
    exact ampersands_cons c (cs ++ out) (htl c (List.mem_cons_self _ _))
      (ih (fun d hd => htl d (List.mem_cons_of_mem _ hd)))

theorem ampersands_entity (e : String) (he : e ∈ entities) (out : List Char)
    (h : AmpersandsStartEntities out) : AmpersandsStartEntities (e.data ++ out) := by
  obtain ⟨tl, htl, hall⟩ := entity_shape e he
  intro pre post heq
  cases pre with
  | nil =>
    simp only [List.nil_append] at heq
    exact ⟨e, he, out, heq.symm⟩
  | cons p pre =>
    rw [htl] at heq
    simp only [List.cons_append, List.cons.injEq] at heq
    exact ampersands_append tl out (fun c hc => (hall c hc).1) h pre post heq.2

theorem replaceMatches_ampersands (text : List Char) :
    AmpersandsStartEntities (replaceMatches text) := by
  induction text with
  | nil =>
    intro pre post heq
    simp [replaceMatches] at heq
  | cons c cs ih =>
    simp only [replaceMatches]
    by_cases hm : matchesClass c = true
    · rw [if_pos hm]
      exact ampersands_entity _ (mapLookup_mem_entities c hm) _ ih
    · rw [if_neg hm]
      exact ampersands_cons c _ (not_matchesClass c hm).1 ih

theorem replaceMatches_unmatched (text : List Char)
    (h : ∀ c ∈ text, matchesClass c = false) : replaceMatches text = text := by
  induction text with
  | nil => rfl
  | cons c cs ih =>
    have hc : matchesClass c = false := h c (List.mem_cons_self _ _)
    simp only [replaceMatches, hc, Bool.false_eq_true, if_false, List.singleton_append,
      ih (fun d hd => h d (List.mem_cons_of_mem _ hd))]

/-- Claim C17. For every input string, the output of `escapeHtml` contains none of the
characters `<`, `>`, double quote and apostrophe, and every `&` in the output is the
first character of one of the five entities; a text without any of the five characters
is returned unchanged, the output of a concatenation is the concatenation of the
outputs (so all other characters are copied unchanged and in order), and each of the
five characters is replaced by its entity. -/
theorem escapeHtml_output (text : String) :
    (∀ c ∈ (escapeHtml text).data, NotMarkup c) ∧
    AmpersandsStartEntities (escapeHtml text).data ∧
    ((∀ c ∈ text.data, matchesClass c = false) → escapeHtml text = text) ∧
    (∀ a b : String, escapeHtml (a ++ b) = escapeHtml a ++ escapeHtml b) ∧
    escapeHtml "&" = "&amp;" ∧ escapeHtml "<" = "&lt;" ∧ escapeHtml ">" = "&gt;" ∧
    escapeHtml doubleQuote.toString = "&quot;" ∧
    escapeHtml singleQuote.toString = "&#039;" := by
  refine ⟨replaceMatches_notMarkup text.data, replaceMatches_ampersands text.data, ?_, ?_,
    by decide, by decide, by decide, by decide, by decide⟩
  · intro h
    unfold escapeHtml
    rw [replaceMatches_unmatched text.data h]
  · intro a b
    unfold escapeHtml
    rw [String.data_append, replaceMatches_append]
    rfl

/-- Witness of `escapeHtml_output`: a text without markup characters is unchanged. -/
theorem escapeHtml_output_witness :
    (∀ c ∈ "Neon Torus 7".data, matchesClass c = false) ∧
    escapeHtml "Neon Torus 7" = "Neon Torus 7" :=
  ⟨by decide, (escapeHtml_output "Neon Torus 7").2.2.1 (by decide)⟩

/-- Claim C18, the code at the failing input. For the name `A<B&C` the title and the
heading hold the escaped name, and the `name:` line of the embedded script holds the
name verbatim. -/
theorem nameLines_raw_in_script :
    nameLines "A<B&C" =
      ["    <title>A&lt;B&amp;C - Holographic Visualization</title>",
       "            <h1>A&lt;B&amp;C</h1>",
       "            name: " ++ singleQuote.toString ++ "A<B&C" ++ singleQuote.toString ++ ","] := by
  decide

end Escape

/-! ## One call of `render` -/

section RenderCall

variable {α : Type} [LinearOrderedField α]

theorem render_uniform_mouseIntensity (r : StandaloneHolographicRenderer α) (f : Frame α)
    (hp : r.program = true) :
    (r.render f).2.map (fun u => u.mouseIntensity)
      = some (r.mouseIntensity + r.clickIntensity * r.clickDecay) := by
  unfold StandaloneHolographicRenderer.render
  simp [hp]

/-- Claim C19. In every rendered frame (valid program, decay factor 0.95) the click
intensity is decayed before the uniforms are pushed: the combined interaction intensity
sent to the shader is `dragIntensity + 0.95 * c`, where `c` is the click intensity
before the frame, which is `dragIntensity + clickIntensity` for the value after the
decay; the first frame after a click from rest shows 0.285. -/
theorem render_pushes_decayed (r : StandaloneHolographicRenderer α) (f : Frame α)
    (hp : r.program = true) (hd : r.clickDecay = 0.95) :
    (r.render f).2.map (fun u => u.mouseIntensity)
      = some (r.mouseIntensity + 0.95 * r.clickIntensity) ∧
    (r.render f).2.map (fun u => u.mouseIntensity)
      = some (r.mouseIntensity + (r.render f).1.clickIntensity) ∧
    (r.mouseIntensity = 0 → r.clickIntensity = 0 →
      ∀ s ∈ click [r], (s.render f).2.map (fun u => u.mouseIntensity) = some 0.285) := by
  refine ⟨?_, ?_, ?_⟩
  · rw [render_uniform_mouseIntensity r f hp, hd, mul_comm]
  · rw [render_uniform_mouseIntensity r f hp, (render_fields r f hp).2.2]
  · intro hm hc s hs
    simp only [click, List.map_cons, List.map_nil, List.mem_singleton] at hs
    subst hs
    refine (render_uniform_mouseIntensity
      { r with clickIntensity := min 1.0 (r.clickIntensity + 0.3) } f hp).trans ?_
    simp only [hm, hc, hd]
    norm_num

/-- Witness of `render_pushes_decayed`: the content renderer of the session. -/
theorem render_pushes_decayed_witness :
    contentRenderer.program = true ∧ contentRenderer.clickDecay = 0.95 ∧
    contentRenderer.mouseIntensity = 0 ∧ contentRenderer.clickIntensity = 0 ∧
    ∀ s ∈ click [contentRenderer],
      (s.render sampleFrame).2.map (fun u => u.mouseIntensity) = some 0.285 :=
  ⟨rfl, rfl,
   by norm_num [contentRenderer, StandaloneHolographicRenderer.construct],
   by norm_num [contentRenderer, StandaloneHolographicRenderer.construct],
   (render_pushes_decayed contentRenderer sampleFrame rfl rfl).2.2
    (by norm_num [contentRenderer, StandaloneHolographicRenderer.construct])
    (by norm_num [contentRenderer, StandaloneHolographicRenderer.construct])⟩

/-- Claim C20. For a renderer whose shader program is invalid, a call to `render` is a
no-op: no draw is issued and every field of the renderer, the click intensity
included, is unchanged, after one call and after any number of calls. -/
theorem render_invalid_program (r : StandaloneHolographicRenderer α) (f : Frame α)
    (hp : r.program = false) :
    r.render f = (r, none) ∧ ∀ frames : List (Frame α), renderFrames frames r = r := by
  have h1 : ∀ g : Frame α, r.render g = (r, none) := by
    intro g
    unfold StandaloneHolographicRenderer.render
    simp [hp]
  refine ⟨h1 f, fun frames => ?_⟩
  induction frames with
  | nil => rfl
  | cons g frames ih =>
    rw [renderFrames_cons, h1 g]
    exact ih

/-- Witness of `render_invalid_program`: the content renderer with a failed program. -/
theorem render_invalid_program_witness :
    brokenRenderer.program = false ∧
    brokenRenderer.render sampleFrame = (brokenRenderer, none) :=
  ⟨rfl, (render_invalid_program brokenRenderer sampleFrame rfl).1⟩

end RenderCall

/-! ## The shape of `smoothstep` and `sphereLattice` -/

section SmoothstepShape

variable {α : Type} [LinearOrderedField α]

theorem clamp_mono (x y : α) (h : x ≤ y) : clamp x 0 1 ≤ clamp y 0 1 := by
  unfold clamp
  exact min_le_min (max_le_max h le_rfl) le_rfl

theorem hermite_mono (a b : α) (ha : 0 ≤ a) (hab : a ≤ b) (hb : b ≤ 1) :
    a * a * (3 - 2 * a) ≤ b * b * (3 - 2 * b) := by
  have h1 : 0 ≤ (b - a) * (a * (3 - 2 * a - b) + b * (3 - 2 * b - a)) := by
    apply mul_nonneg (sub_nonneg.2 hab)
    apply add_nonneg
    · exact mul_nonneg ha (by linarith)
    · exact mul_nonneg (le_trans ha hab) (by linarith)
  nlinarith [h1]

theorem smoothstep_mono (edge0 edge1 x y : α) (h : edge0 < edge1) (hxy : x ≤ y) :
    smoothstep edge0 edge1 x ≤ smoothstep edge0 edge1 y := by
  unfold smoothstep
  have hq : (x - edge0) / (edge1 - edge0) ≤ (y - edge0) / (edge1 - edge0) :=
    div_le_div_of_nonneg_right (by linarith) (le_of_lt (sub_pos.2 h))
  exact hermite_mono _ _ (clamp_zero_one_nonneg _) (clamp_mono _ _ hq)
    (clamp_zero_one_le_one _)

theorem clamp_eq_zero_iff (y : α) : clamp y 0 1 = 0 ↔ y ≤ 0 := by
  unfold clamp
  constructor
  · intro h
    by_contra hy
    have hy0 : 0 < y := not_le.1 hy
    rw [max_eq_left (le_of_lt hy0)] at h
    have : 0 < min y 1 := lt_min hy0 one_pos
    linarith
  · intro h
    rw [max_eq_right h]
    exact min_eq_left zero_le_one

theorem clamp_eq_one_iff (y : α) : clamp y 0 1 = 1 ↔ 1 ≤ y := by
  unfold clamp
  constructor
  · intro h
    by_contra hy
    have hy1 : y < 1 := not_le.1 hy
    have : max y 0 < 1 := max_lt hy1 one_pos
    rw [min_eq_left (le_of_lt this)] at h
    linarith
  · intro h
    exact min_eq_right (le_max_of_le_left h)

theorem smoothstep_eq_zero_iff (edge0 edge1 x : α) (h : edge0 < edge1) :
    smoothstep edge0 edge1 x = 0 ↔ x ≤ edge0 := by
  have hpos : 0 < edge1 - edge0 := sub_pos.2 h
  have h0 := clamp_zero_one_nonneg ((x - edge0) / (edge1 - edge0))
  have h1 := clamp_zero_one_le_one ((x - edge0) / (edge1 - edge0))
  have hc : clamp ((x - edge0) / (edge1 - edge0)) 0 1 = 0 ↔ x ≤ edge0 := by
    rw [clamp_eq_zero_iff, div_le_iff₀ hpos]
    constructor <;> intro hx <;> linarith
  unfold smoothstep
  rw [← hc]
  constructor
  · intro hs
    have h3 : (0 : α) < 3 - 2 * clamp ((x - edge0) / (edge1 - edge0)) 0 1 := by linarith
    rcases mul_eq_zero.1 hs with hs | hs
    · exact (mul_self_eq_zero.1 hs)
    · linarith
  · intro hs
    simp only [hs]
    ring

theorem smoothstep_eq_one_iff (edge0 edge1 x : α) (h : edge0 < edge1) :
    smoothstep edge0 edge1 x = 1 ↔ edge1 ≤ x := by
  have hpos : 0 < edge1 - edge0 := sub_pos.2 h
  have h0 := clamp_zero_one_nonneg ((x - edge0) / (edge1 - edge0))
  have h1 := clamp_zero_one_le_one ((x - edge0) / (edge1 - edge0))
  have hc : clamp ((x - edge0) / (edge1 - edge0)) 0 1 = 1 ↔ edge1 ≤ x := by
    rw [clamp_eq_one_iff, le_div_iff₀ hpos]
    constructor <;> intro hx <;> linarith
  constructor
  · intro hs
    rw [← hc]
    unfold smoothstep at hs
    have hfac : (1 - clamp ((x - edge0) / (edge1 - edge0)) 0 1)
        * (1 - clamp ((x - edge0) / (edge1 - edge0)) 0 1)
        * (1 + 2 * clamp ((x - edge0) / (edge1 - edge0)) 0 1) = 0 := by
      simp only [] at hs
      linear_combination -hs
    have h3 : (0 : α) < 1 + 2 * clamp ((x - edge0) / (edge1 - edge0)) 0 1 := by linarith
    rcases mul_eq_zero.1 hfac with hs | hs
    · have := mul_self_eq_zero.1 hs
      linarith
    · linarith
  · intro hx
    exact smoothstep_of_ge edge0 edge1 x h hx

end SmoothstepShape

section SphereShape

variable {α : Type} [LinearOrderedField α] [FloorRing α]

theorem sphereLattice_eq (B : Builtins α) (p : Vec3 α) (gridSize : α) :
    sphereLattice B p gridSize = 1 - smoothstep 0.2 0.5 (cellRadius B p gridSize) := by
  unfold sphereLattice cellRadius
  norm_num

/-- Claim C21. For every point `p` and every `gridSize` (`gridSize > 0` included),
`sphereLattice(p, gridSize)` is an inverse smooth-step of the radial distance `r` from
the cell centre: it equals 1 exactly when `r ≤ 0.2`, equals 0 exactly when `r ≥ 0.5`,
and is non-increasing in `r`. -/
theorem sphereLattice_shape (B : Builtins α) (p : Vec3 α) (gridSize : α) :
    (sphereLattice B p gridSize = 1 ↔ cellRadius B p gridSize ≤ 0.2) ∧
    (sphereLattice B p gridSize = 0 ↔ 0.5 ≤ cellRadius B p gridSize) ∧
    (∀ (q : Vec3 α) (gridSize2 : α),
      cellRadius B p gridSize ≤ cellRadius B q gridSize2 →
      sphereLattice B q gridSize2 ≤ sphereLattice B p gridSize) := by
  have hlt : (0.2 : α) < 0.5 := by norm_num
  refine ⟨?_, ?_, ?_⟩
  · rw [sphereLattice_eq, ← smoothstep_eq_zero_iff 0.2 0.5 _ hlt]
    constructor <;> intro h <;> linarith
  · rw [sphereLattice_eq, ← smoothstep_eq_one_iff 0.2 0.5 _ hlt]
    constructor <;> intro h <;> linarith
  · intro q gridSize2 hr
    rw [sphereLattice_eq, sphereLattice_eq]
    have := smoothstep_mono 0.2 0.5 _ _ hlt hr
    linarith

/-- Witness of `sphereLattice_shape`: at the cell centre `(1/2, 1/2, 1/2)` with
`gridSize` 1 the radial distance is 0 and the presence is 1. -/
theorem sphereLattice_shape_witness :
    cellRadius realBuiltins ⟨1 / 2, 1 / 2, 1 / 2⟩ 1 ≤ 0.2 ∧
    sphereLattice realBuiltins ⟨1 / 2, 1 / 2, 1 / 2⟩ 1 = 1 := by
  have hr : cellRadius realBuiltins ⟨1 / 2, 1 / 2, 1 / 2⟩ 1 ≤ 0.2 := by
    have h0 : cellRadius realBuiltins ⟨1 / 2, 1 / 2, 1 / 2⟩ 1 = 0 := by
      simp only [cellRadius, fractCell, Vec3.subScalar, length3, fract, glslFloor,
        realBuiltins]
      norm_num
    rw [h0]
    norm_num
  exact ⟨hr, (sphereLattice_shape realBuiltins ⟨1 / 2, 1 / 2, 1 / 2⟩ 1).1.2 hr⟩

end SphereShape

/-! ## `getAllVariations` and `getVariationById` -/

section VariationListBasic

variable {α : Type}

theorem pushCustom_ids (system : HolographicSystem α) (index : ℕ)
    (cvs : List (CustomVariant α)) :
    (pushCustom system index cvs).map (fun v => v.id)
      = (List.range cvs.length).map (fun k => system.baseVariants + index + k) := by
  induction cvs generalizing index with
  | nil => rfl
  | cons cv rest ih =>
    simp only [pushCustom, List.map_cons, List.length_cons, List.range_succ_eq_map,
      List.map_map, ih (index + 1)]
    congr 1
    apply List.map_congr_left
    intro k _
    simp only [Function.comp]
    omega

theorem pushCustom_getElem (system : HolographicSystem α) (index k : ℕ)
    (cvs : List (CustomVariant α)) :
    (pushCustom system index cvs)[k]? = (cvs[k]?).map (customEntry system (index + k)) := by
  induction cvs generalizing index k with
  | nil => simp [pushCustom]
  | cons cv rest ih =>
    cases k with
    | zero => simp [pushCustom]
    | succ k =>
      simp only [pushCustom, List.getElem?_cons_succ, ih (index + 1) k]
      have h : index + 1 + k = index + (k + 1) := by omega
      rw [h]

end VariationListBasic

section VariationList

variable {α : Type} [LinearOrderedField α]

theorem getAllVariations_ids (system : HolographicSystem α) :
    (getAllVariations system).map (fun v => v.id)
      = List.range (system.baseVariants + system.customVariants.length) := by
  unfold getAllVariations
  rw [List.map_append, pushCustom_ids, List.range_add, List.map_map]
  congr 1
  · conv_rhs => rw [← List.map_id (List.range system.baseVariants)]
    apply List.map_congr_left
    intro i _
    rfl

theorem getAllVariations_custom (system : HolographicSystem α) (k : ℕ) :
    (getAllVariations system)[system.baseVariants + k]?
      = (system.customVariants[k]?).map (customEntry system k) := by
  unfold getAllVariations
  rw [List.getElem?_append_right (by simp)]
  simp only [List.length_map, List.length_range, Nat.add_sub_cancel_left]
  rw [pushCustom_getElem, Nat.zero_add]

theorem getAllVariations_base (system : HolographicSystem α) (i : ℕ)
    (hi : i < system.baseVariants) :
    (getAllVariations system)[i]? = some (baseEntry system i) := by
  unfold getAllVariations
  rw [List.getElem?_append_left (by simpa using hi)]
  simp [List.getElem?_range hi]

theorem idStrictEq_iff (vid : ℕ) (id : JSValue α) :
    idStrictEq vid id = true ↔ id = .number (vid : α) := by
  cases id <;> simp [idStrictEq, eq_comm]

theorem getAllVariations_id_lt (system : HolographicSystem α) (v : Variation α)
    (hv : v ∈ getAllVariations system) :
    v.id < system.baseVariants + system.customVariants.length := by
  have h : v.id ∈ (getAllVariations system).map (fun v => v.id) :=
    List.mem_map.2 ⟨v, hv, rfl⟩
  rw [getAllVariations_ids] at h
  exact List.mem_range.1 h

theorem getAllVariations_has_id (system : HolographicSystem α) (n : ℕ)
    (hn : n < system.baseVariants + system.customVariants.length) :
    ∃ v ∈ getAllVariations system, v.id = n := by
  have h : n ∈ (getAllVariations system).map (fun v => v.id) := by
    rw [getAllVariations_ids]
    exact List.mem_range.2 hn
  obtain ⟨v, hv, hid⟩ := List.mem_map.1 h
  exact ⟨v, hv, hid⟩

/-- Claim C22. For a system with `b` base variations and a list of `c` custom
variations, `getAllVariations` returns `b + c` entries whose ids are `0, 1, ..., b + c - 1`
in order: the base entries first, then the custom entry `k` at position and id `b + k`,
with its `params.geometry` exposed as `parameters.geometryType`; and
`getVariationById(id)` returns an entry whose id is `id` when `id` is an integer with
`0 ≤ id < b + c`, and `undefined` for every other `id`. -/
theorem getAllVariations_ids_and_lookup (system : HolographicSystem α) :
    (getAllVariations system).length
      = system.baseVariants + system.customVariants.length ∧
    (getAllVariations system).map (fun v => v.id)
      = List.range (system.baseVariants + system.customVariants.length) ∧
    (∀ i, i < system.baseVariants →
      ∃ v, (getAllVariations system)[i]? = some v ∧ v.id = i ∧ v.isCustom = false) ∧
    (∀ k cv, system.customVariants[k]? = some cv →
      ∃ v, (getAllVariations system)[system.baseVariants + k]? = some v ∧
        v.id = system.baseVariants + k ∧ v.isCustom = true ∧ v.name = cv.name ∧
        v.parameters.geometryType = cv.params.geometry) ∧
    (∀ n, n < system.baseVariants + system.customVariants.length →
      ∃ v, getVariationById system (.number (n : α)) = some v ∧ v.id = n) ∧
    (∀ id : JSValue α,
      (¬ ∃ n, n < system.baseVariants + system.customVariants.length ∧
          id = .number (n : α)) →
      getVariationById system id = none) := by
  refine ⟨?_, getAllVariations_ids system, ?_, ?_, ?_, ?_⟩
  · have h := congrArg List.length (getAllVariations_ids system)
    simpa using h
  · intro i hi
    exact ⟨baseEntry system i, getAllVariations_base system i hi, rfl, rfl⟩
  · intro k cv hcv
    refine ⟨customEntry system k cv, ?_, rfl, rfl, rfl, rfl⟩
    rw [getAllVariations_custom, hcv]
    rfl
  · intro n hn
    obtain ⟨w, hw, hwid⟩ := getAllVariations_has_id system n hn
    have hsome : ((getAllVariations system).find?
        (fun v => idStrictEq v.id (.number (n : α)))).isSome = true := by
      rw [List.find?_isSome]
      exact ⟨w, hw, (idStrictEq_iff w.id _).2 (by rw [hwid])⟩
    obtain ⟨v, hv⟩ := Option.isSome_iff_exists.1 hsome
    refine ⟨v, hv, ?_⟩
    have hp := List.find?_some hv
    have hcast := (idStrictEq_iff v.id (.number (n : α))).1 hp
    have hcast2 : (n : α) = (v.id : α) := by
      injection hcast
    exact (Nat.cast_injective hcast2).symm
  · intro id hid
    unfold getVariationById
    rw [List.find?_eq_none]
    intro v hv hp
    exact hid ⟨v.id, getAllVariations_id_lt system v hv, (idStrictEq_iff v.id id).1 hp⟩

/-- Witness of `getAllVariations_ids_and_lookup`: the sample system, id 2. -/
theorem getAllVariations_ids_and_lookup_witness :
    2 < sampleSystem.baseVariants + sampleSystem.customVariants.length ∧
    ∃ v, getVariationById sampleSystem (.number ((2 : ℕ) : ℚ)) = some v ∧ v.id = 2 :=
  ⟨by decide, (getAllVariations_ids_and_lookup sampleSystem).2.2.2.2.1 2 (by decide)⟩

end VariationList

/-! ## `addToGallery` -/

section Gallery

variable {α : Type} [LinearOrderedField α]

theorem alreadyInGallery_iff (stringToNumber : String → Option α)
    (current : Variation α) (item : GalleryItem α) :
    alreadyInGallery stringToNumber current item = true ↔
      (item.variation.id = current.id ∨
        (item.variation.parameters.geometryType.strictEq current.parameters.geometryType
            = true ∧
          withinTolerance stringToNumber item.variation.parameters.density
            current.parameters.density = true ∧
          withinTolerance stringToNumber item.variation.parameters.speed
            current.parameters.speed = true)) := by
  simp [alreadyInGallery, and_assoc]

theorem addToGallery_of_duplicate (stringToNumber : String → Option α) (now : String)
    (system : HolographicSystem α) (stored : List (GalleryItem α)) (current : Variation α)
    (hcur : getVariationById system system.currentVariant = some current)
    (hdup : stored.any (alreadyInGallery stringToNumber current) = true) :
    addToGallery stringToNumber now system stored = stored := by
  simp [addToGallery, hcur, List.findIdx?_isSome, hdup]

theorem addToGallery_of_new (stringToNumber : String → Option α) (now : String)
    (system : HolographicSystem α) (stored : List (GalleryItem α)) (current : Variation α)
    (hcur : getVariationById system system.currentVariant = some current)
    (hnew : stored.any (alreadyInGallery stringToNumber current) = false) :
    addToGallery stringToNumber now system stored
      = stored ++ [jsonItem (newGalleryItem now current)] := by
  simp [addToGallery, hcur, List.findIdx?_isSome, hnew]

/-- Claim C23. For every stored gallery and every current variation, `addToGallery`
leaves the stored gallery unchanged exactly when some stored item has the same id, or
the same `geometryType` with density and speed each within 0.01 of those of the current
variation; otherwise it appends exactly one item, the current variation with its time
stamp as JSON stores it, at the end and keeps the existing items unchanged and in
order; and a second call in a row with the same current variation changes nothing. -/
theorem addToGallery_effect (stringToNumber : String → Option α) (now : String)
    (system : HolographicSystem α) (stored : List (GalleryItem α)) (current : Variation α)
    (hcur : getVariationById system system.currentVariant = some current) :
    (addToGallery stringToNumber now system stored = stored ↔
      ∃ item ∈ stored, item.variation.id = current.id ∨
        (item.variation.parameters.geometryType.strictEq current.parameters.geometryType
            = true ∧
          withinTolerance stringToNumber item.variation.parameters.density
            current.parameters.density = true ∧
          withinTolerance stringToNumber item.variation.parameters.speed
            current.parameters.speed = true)) ∧
    (addToGallery stringToNumber now system stored = stored ∨
      addToGallery stringToNumber now system stored
        = stored ++ [jsonItem (newGalleryItem now current)]) ∧
    (jsonItem (newGalleryItem now current)).variation.id = current.id ∧
    (∀ v : JSValue α, v ≠ .nan → jsonValue v = v) ∧
    (∀ x y : α, withinTolerance stringToNumber (.number x) (.number y)
      = decide (|x - y| < 0.01)) ∧
    (∀ now2 : String,
      addToGallery stringToNumber now2 system (addToGallery stringToNumber now system stored)
        = addToGallery stringToNumber now system stored) := by
  have hex : stored.any (alreadyInGallery stringToNumber current) = true ↔
      ∃ item ∈ stored, item.variation.id = current.id ∨
        (item.variation.parameters.geometryType.strictEq current.parameters.geometryType
            = true ∧
          withinTolerance stringToNumber item.variation.parameters.density
            current.parameters.density = true ∧
          withinTolerance stringToNumber item.variation.parameters.speed
            current.parameters.speed = true) := by
    rw [List.any_eq_true]
    constructor
    · rintro ⟨item, hm, hp⟩
      exact ⟨item, hm, (alreadyInGallery_iff stringToNumber current item).1 hp⟩
    · rintro ⟨item, hm, hp⟩
      exact ⟨item, hm, (alreadyInGallery_iff stringToNumber current item).2 hp⟩
  refine ⟨?_, ?_, rfl, ?_, ?_, ?_⟩
  · rw [← hex]
    cases hany : stored.any (alreadyInGallery stringToNumber current) with
    | true =>
      simp [addToGallery_of_duplicate stringToNumber now system stored current hcur hany]
    | false =>
      rw [addToGallery_of_new stringToNumber now system stored current hcur hany]
      simp
  · cases hany : stored.any (alreadyInGallery stringToNumber current) with
    | true =>
      exact Or.inl (addToGallery_of_duplicate stringToNumber now system stored current
        hcur hany)
    | false =>
      exact Or.inr (addToGallery_of_new stringToNumber now system stored current hcur hany)
  · intro v hv
    cases v <;> simp [jsonValue] at hv ⊢
  · intro x y
    rfl
  · intro now2
    cases hany : stored.any (alreadyInGallery stringToNumber current) with
    | true =>
      rw [addToGallery_of_duplicate stringToNumber now system stored current hcur hany]
      exact addToGallery_of_duplicate stringToNumber now2 system stored current hcur hany
    | false =>
      rw [addToGallery_of_new stringToNumber now system stored current hcur hany]
      apply addToGallery_of_duplicate stringToNumber now2 system _ current hcur
      rw [List.any_append]
      simp [alreadyInGallery, jsonItem, newGalleryItem]

theorem sampleCurrent_found :
    getVariationById sampleSystem sampleSystem.currentVariant = some sampleCurrent := by
  simp [getVariationById, getAllVariations, pushCustom, sampleSystem, sampleCurrent,
    baseEntry, customEntry, idStrictEq, List.range_succ, List.find?]

/-- Witness of `addToGallery_effect`: the sample system with an empty stored gallery;
the first call stores the current variation, the second call changes nothing. -/
theorem addToGallery_effect_witness :
    getVariationById sampleSystem sampleSystem.currentVariant = some sampleCurrent ∧
    (addToGallery (fun _ => none) "2024-01-02T00:00:00.000Z" sampleSystem
        (addToGallery (fun _ => none) "2024-01-01T00:00:00.000Z" sampleSystem [])
      = addToGallery (fun _ => none) "2024-01-01T00:00:00.000Z" sampleSystem []) :=
  ⟨sampleCurrent_found,
   (addToGallery_effect (fun _ => none) "2024-01-01T00:00:00.000Z" sampleSystem []
      sampleCurrent sampleCurrent_found).2.2.2.2.2 "2024-01-02T00:00:00.000Z"⟩

end Gallery

/-! ## `importJSON` -/

section Import

variable {α : Type} [LinearOrderedField α]

theorem strictEq_string_iff (x : JSValue α) (s : String) :
    x.strictEq (.string s) = true ↔ x = .string s := by
  cases x <;> simp [JSValue.strictEq]

/-- Claim C24. For an imported document of type `holographic-collection`, after
`importJSON` the system's `customVariants` equals the document's `customVariations`
(the empty list when that field is absent) and `totalVariants` equals `baseVariants +
customVariants.length`; for a document of any other type, a text that is not valid
JSON, or no file, the system is left unchanged. -/
theorem importJSON_effect (system : HolographicSystem α) (data : ImportedDocument α) :
    (data.type = .string "holographic-collection" →
      (importJSON system (.document data)).customVariants = data.customVariations.getD [] ∧
      (data.customVariations = none →
        (importJSON system (.document data)).customVariants = []) ∧
      (∀ l, data.customVariations = some l →
        (importJSON system (.document data)).customVariants = l) ∧
      (importJSON system (.document data)).totalVariants
        = system.baseVariants + (importJSON system (.document data)).customVariants.length ∧
      (importJSON system (.document data)).baseVariants = system.baseVariants) ∧
    (data.type ≠ .string "holographic-collection" →
      importJSON system (.document data) = system) ∧
    importJSON system .invalidJSON = system ∧
    importJSON system .noFile = system := by
  refine ⟨fun h => ?_, fun h => ?_, rfl, rfl⟩
  · have hs : data.type.strictEq (.string "holographic-collection") = true :=
      (strictEq_string_iff _ _).2 h
    have hi : importJSON system (.document data) =
        { system with
          customVariants := data.customVariations.getD []
          totalVariants := system.baseVariants + (data.customVariations.getD []).length } := by
      simp only [importJSON, hs, if_true]
    rw [hi]
    refine ⟨rfl, ?_, ?_, rfl, rfl⟩
    · intro hnone
      rw [hnone]
      rfl
    · intro l hl
      rw [hl]
      rfl
  · have hs : ¬ data.type.strictEq (.string "holographic-collection") = true :=
      fun hc => h ((strictEq_string_iff _ _).1 hc)
    simp [importJSON, hs]

/-- Witness of `importJSON_effect`: importing the sample collection into the sample
system gives one custom variation and three variations in total. -/
theorem importJSON_effect_witness :
    sampleDocument.type = .string "holographic-collection" ∧
    (importJSON sampleSystem (.document sampleDocument)).totalVariants
      = sampleSystem.baseVariants
        + (importJSON sampleSystem (.document sampleDocument)).customVariants.length ∧
    otherDocument.type ≠ .string "holographic-collection" ∧
    importJSON sampleSystem (.document otherDocument) = sampleSystem :=
  ⟨rfl, ((importJSON_effect sampleSystem sampleDocument).1 rfl).2.2.2.1,
   by simp [otherDocument],
   (importJSON_effect sampleSystem otherDocument).2.1 (by simp [otherDocument])⟩

end Import

/-! ## Zero-valued parameters -/

section ZeroFields

variable {α : Type} [LinearOrderedField α]

/-- The `||` substitutions of the literal, taken by themselves: the value 0 yields the
same default as an absent field (density 1.0, speed 0.5, saturation 0.8, intensity
0.5); the uniform defaults of `render` treat 0 the same way. -/
theorem exportParams_zero_like_absent (v : VariationParameters α) :
    (exportParams { v with density := .number 0 }).density = .number 1.0 ∧
    (exportParams { v with speed := .number 0 }).speed = .number 0.5 ∧
    (exportParams { v with saturation := .number 0 }).saturation = .number 0.8 ∧
    (exportParams { v with intensity := .number 0 }).intensity = .number 0.5 ∧
    exportParams { v with density := .number 0 }
      = exportParams { v with density := .undefined } ∧
    exportParams { v with speed := .number 0 }
      = exportParams { v with speed := .undefined } ∧
    exportParams { v with saturation := .number 0 }
      = exportParams { v with saturation := .undefined } ∧
    exportParams { v with intensity := .number 0 }
      = exportParams { v with intensity := .undefined } ∧
    (∀ d : α, orDefault 0 d = d) := by
  refine ⟨?_, ?_, ?_, ?_, ?_, ?_, ?_, ?_, ?_⟩ <;>
    simp [exportParams, JSValue.or, JSValue.truthy, orDefault]

/-- Claim C25, the code at the failing input. With speed 0 (density 1.2, chaos 0, hue
200) `generateSingleVariationHTML` writes params whose speed is the default 0.5; for the
same parameter set with speed omitted it throws a `TypeError` (at `speed.toFixed(2)`)
and writes no params, so the two do not produce the same params.  In
`generateSingleCardDemo`, which has no `toFixed` call, the two parameter sets produce
the same params. -/
theorem generateSingleVariationParams_zero_speed_vs_absent :
    (generateSingleVariationParams zeroSpeedVariation).map (fun p => p.speed)
      = .ok (.number 0.5) ∧
    generateSingleVariationParams noSpeedVariation = .error .typeError ∧
    generateSingleCardDemoParams noSpeedVariation
      = generateSingleCardDemoParams zeroSpeedVariation := by
  refine ⟨?_, ?_, ?_⟩
  · simp [generateSingleVariationParams, zeroSpeedVariation, emptyParameters,
      JSValue.isString, JSValue.isNumber, exportParams, JSValue.or, JSValue.truthy,
      Except.map]
  · simp [generateSingleVariationParams, noSpeedVariation, emptyParameters,
      JSValue.isString, JSValue.isNumber]
  · simp [generateSingleCardDemoParams, noSpeedVariation, zeroSpeedVariation,
      emptyParameters, JSValue.isString, exportParams, JSValue.or, JSValue.truthy]

end ZeroFields

/-! ## Fields the shader does not read -/

section UnusedFields

variable {α : Type} [LinearOrderedField α] [FloorRing α]

/-- The fragment colour is a function of the uniforms other than `chaos` and `morph`. -/
theorem main_ignores_chaos_morph (B : Builtins α) (u : Uniforms α) (chaos morph : α)
    (fragCoord : Vec2 α) :
    main B { u with chaos := chaos, morph := morph } fragCoord = main B u fragCoord := rfl

/-- Claim C26. The fragment colour does not depend on the chaos, morph or saturation
fields of the parameter set: two renderers that differ only in their parameter sets,
which agree on geometry, density, speed, intensity and hue, push uniforms in the same
frame (same resolution, elapsed time, pointer position and interaction intensity) for
which every fragment gets the same colour. -/
theorem colour_ignores_chaos_morph_saturation (B : Builtins α)
    (r : StandaloneHolographicRenderer α) (P : Params α) (f : Frame α)
    (hg : P.geometry = r.params.geometry) (hd : P.density = r.params.density)
    (hs : P.speed = r.params.speed) (hi : P.intensity = r.params.intensity)
    (hh : P.hue = r.params.hue) (u1 u2 : Uniforms α)
    (h1 : (r.render f).2 = some u1)
    (h2 : (({ r with params := P } : StandaloneHolographicRenderer α).render f).2 = some u2) :
    ∀ fragCoord : Vec2 α, main B u1 fragCoord = main B u2 fragCoord := by
  intro fragCoord
  cases hp : r.program with
  | false => simp [StandaloneHolographicRenderer.render, hp] at h1
  | true =>
    simp only [StandaloneHolographicRenderer.render, hp, Bool.true_eq_false, if_false,
      Option.some.injEq] at h1 h2
    subst h1
    subst h2
    simp only [hg, hd, hs, hi, hh]
    rfl

theorem render_pushes (r : StandaloneHolographicRenderer ℝ) (f : Frame ℝ)
    (hp : r.program = true) : (r.render f).2 = some (pushedUniforms r f) := by
  unfold pushedUniforms StandaloneHolographicRenderer.render
  simp [hp]

/-- Witness of `colour_ignores_chaos_morph_saturation`: the content renderer of the
example and the same parameter set with chaos 1, morph 1 and saturation 0. -/
theorem colour_ignores_chaos_morph_saturation_witness :
    variedParams.geometry = realContentRenderer.params.geometry ∧
    variedParams.density = realContentRenderer.params.density ∧
    variedParams.speed = realContentRenderer.params.speed ∧
    variedParams.intensity = realContentRenderer.params.intensity ∧
    variedParams.hue = realContentRenderer.params.hue ∧
    ∀ fragCoord : Vec2 ℝ,
      main realBuiltins (pushedUniforms realContentRenderer realFrame) fragCoord
        = main realBuiltins
            (pushedUniforms { realContentRenderer with params := variedParams } realFrame)
            fragCoord :=
  ⟨rfl, rfl, rfl, rfl, rfl,
   colour_ignores_chaos_morph_saturation realBuiltins realContentRenderer variedParams
    realFrame rfl rfl rfl rfl rfl _ _ (render_pushes _ _ rfl) (render_pushes _ _ rfl)⟩

end UnusedFields

/-! ## Periodicity of the cell-folded lattices -/

section CellPeriod

variable {α : Type} [LinearOrderedField α] [FloorRing α]

theorem fract_add_int (x : α) (k : ℤ) : fract (x + (k : α)) = fract x := by
  unfold fract glslFloor
  rw [Int.floor_add_int]
  push_cast
  ring

theorem fract_shift (x gridSize : α) (k : ℤ) (hg : gridSize ≠ 0) :
    fract ((x + (k : α) / gridSize) * gridSize) = fract (x * gridSize) := by
  have h : (x + (k : α) / gridSize) * gridSize = x * gridSize + (k : α) := by
    field_simp
  rw [h, fract_add_int]

theorem fractCell_shift (p : Vec3 α) (gridSize : α) (kx ky kz : ℤ) (hg : gridSize ≠ 0) :
    fractCell (shiftCells p gridSize kx ky kz) gridSize = fractCell p gridSize := by
  unfold fractCell shiftCells
  simp only [fract_shift _ _ _ hg]

theorem fractalStep_shift (B : Builtins α) (x y z scale fractal : α) (kx ky kz : ℤ) :
    fractalStep B ⟨⟨x + (kx : α), y + (ky : α), z + (kz : α)⟩, scale, fractal⟩
      = fractalStep B ⟨⟨x, y, z⟩, scale, fractal⟩ := by
  unfold fractalStep
  simp only [fract_add_int]

theorem fractalLattice_shift (B : Builtins α) (p : Vec3 α) (gridSize : α) (kx ky kz : ℤ)
    (hg : gridSize ≠ 0) :
    fractalLattice B (shiftCells p gridSize kx ky kz) gridSize = fractalLattice B p gridSize := by
  have hx : ∀ (x : α) (k : ℤ), (x + (k : α) / gridSize) * gridSize = x * gridSize + (k : α) := by
    intro x k
    field_simp
  unfold fractalLattice shiftCells
  simp only [hx, Function.iterate_succ_apply, fractalStep_shift]

/-- Claim C27. For each of the seven cell-folded lattices (tetrahedron, hypercube,
sphere, torus, Klein, fractal, crystal; all but wave), every `gridSize > 0`, every point
`p` and every integer vector `k`, the presence at `p + k / gridSize` equals the presence
at `p`. -/
theorem lattice_cell_periodic (B : Builtins α) (u_time : α) (l : Lattice)
    (hl : l ≠ Lattice.wave) (p : Vec3 α) (gridSize : α) (hg : 0 < gridSize)
    (kx ky kz : ℤ) :
    l.eval B u_time (shiftCells p gridSize kx ky kz) gridSize
      = l.eval B u_time p gridSize := by
  have hne : gridSize ≠ 0 := ne_of_gt hg
  have hc := fractCell_shift p gridSize kx ky kz hne
  cases l with
  | tetrahedron => simp only [Lattice.eval, tetrahedronLattice, hc]
  | hypercube => simp only [Lattice.eval, hypercubeLattice, hc]
  | sphere => simp only [Lattice.eval, sphereLattice, hc]
  | torus => simp only [Lattice.eval, torusLattice, hc]
  | klein => simp only [Lattice.eval, kleinLattice, hc]
  | fractal => exact fractalLattice_shift B p gridSize kx ky kz hne
  | wave => exact absurd rfl hl
  | crystal => simp only [Lattice.eval, crystalLattice, hc]

/-- Witness of `lattice_cell_periodic`: the sphere lattice with `gridSize` 2, shifted by
the integer vector `(1, -2, 3)`. -/
theorem lattice_cell_periodic_witness :
    Lattice.sphere ≠ Lattice.wave ∧ (0 : ℝ) < 2 ∧
    Lattice.sphere.eval realBuiltins 0 (shiftCells ⟨1 / 3, 1 / 4, 1 / 5⟩ 2 1 (-2) 3) 2
      = Lattice.sphere.eval realBuiltins 0 ⟨1 / 3, 1 / 4, 1 / 5⟩ 2 :=
  ⟨by decide, by norm_num,
   lattice_cell_periodic realBuiltins 0 Lattice.sphere (by decide) ⟨1 / 3, 1 / 4, 1 / 5⟩ 2
    (by norm_num) 1 (-2) 3⟩

end CellPeriod

/-! ## Injectivity of `escapeHtml` -/

section EscapeInjective

/-- Two replacement pieces of matched characters that start equal texts come from the
same character. -/
theorem entity_determines_char (c d : Char) (hc : matchesClass c = true)
    (hd : matchesClass d = true) (u v : List Char)
    (h : (mapLookup c).data ++ u = (mapLookup d).data ++ v) : c = d := by
  have e1 : (mapLookup '&').data = ['&', 'a', 'm', 'p', ';'] := by decide
  have e2 : (mapLookup '<').data = ['&', 'l', 't', ';'] := by decide
  have e3 : (mapLookup '>').data = ['&', 'g', 't', ';'] := by decide
  have e4 : (mapLookup doubleQuote).data = ['&', 'q', 'u', 'o', 't', ';'] := by decide
  have e5 : (mapLookup singleQuote).data = ['&', '#', '0', '3', '9', ';'] := by decide
  simp only [matchesClass, Bool.or_eq_true, decide_eq_true_eq] at hc hd
  rcases hc with (((hc | hc) | hc) | hc) | hc <;>
    rcases hd with (((hd | hd) | hd) | hd) | hd <;> subst hc <;> subst hd <;>
    first
      | rfl
      | (exfalso
         simp only [e1, e2, e3, e4, e5, List.cons_append, List.cons.injEq] at h
         exact absurd h.2.1 (by decide))

theorem replaceMatches_injective (a b : List Char)
    (h : replaceMatches a = replaceMatches b) : a = b := by
  induction a generalizing b with
  | nil =>
    cases b with
    | nil => rfl
    | cons d ds =>
      exfalso
      simp only [replaceMatches] at h
      by_cases hd : matchesClass d = true
      · rw [if_pos hd] at h
        obtain ⟨tl, htl, _⟩ := entity_shape _ (mapLookup_mem_entities d hd)
        rw [htl] at h
        simp at h
      · rw [if_neg hd] at h
        simp at h
  | cons c cs ih =>
    cases b with
    | nil =>
      exfalso
      simp only [replaceMatches] at h
      by_cases hc : matchesClass c = true
      · rw [if_pos hc] at h
        obtain ⟨tl, htl, _⟩ := entity_shape _ (mapLookup_mem_entities c hc)
        rw [htl] at h
        simp at h
      · rw [if_neg hc] at h
        simp at h
    | cons d ds =>
      simp only [replaceMatches] at h
      by_cases hc : matchesClass c = true
      · by_cases hd : matchesClass d = true
        · rw [if_pos hc, if_pos hd] at h
          have hcd : c = d := entity_determines_char c d hc hd _ _ h
          subst hcd
          rw [ih ds (List.append_cancel_left h)]
        · exfalso
          rw [if_pos hc, if_neg hd] at h
          obtain ⟨tl, htl, _⟩ := entity_shape _ (mapLookup_mem_entities c hc)
          rw [htl] at h
          simp only [List.cons_append, List.singleton_append, List.cons.injEq] at h
          exact (not_matchesClass d hd).1 h.1.symm
      · by_cases hd : matchesClass d = true
        · exfalso
          rw [if_neg hc, if_pos hd] at h
          obtain ⟨tl, htl, _⟩ := entity_shape _ (mapLookup_mem_entities d hd)
          rw [htl] at h
          simp only [List.cons_append, List.singleton_append, List.cons.injEq] at h
          exact (not_matchesClass c hc).1 h.1
        · rw [if_neg hc, if_neg hd] at h
          simp only [List.singleton_append, List.cons.injEq] at h
          rw [h.1, ih ds h.2]

/-- Claim C28. `escapeHtml` is injective: for all strings `a` and `b`,
`escapeHtml(a) = escapeHtml(b)` implies `a = b`; it is not idempotent: applied to `&`
it gives `&amp;`, and applied again it gives `&amp;amp;`. -/
theorem escapeHtml_injective (a b : String) (h : escapeHtml a = escapeHtml b) :
    a = b ∧ escapeHtml "&" = "&amp;" ∧ escapeHtml (escapeHtml "&") = "&amp;amp;" := by
  refine ⟨?_, by decide, by decide⟩
  unfold escapeHtml at h
  have hd : replaceMatches a.data = replaceMatches b.data := by
    injection h
  have hab := replaceMatches_injective a.data b.data hd
  cases a
  cases b
  simp only at hab
  rw [hab]

/-- Witness of `escapeHtml_injective`: the text `a<b`. -/
theorem escapeHtml_injective_witness :
    escapeHtml "a<b" = escapeHtml "a<b" ∧ "a<b" = "a<b" :=
  ⟨rfl, (escapeHtml_injective "a<b" "a<b" rfl).1⟩

end EscapeInjective

end ExportSystem
